import Mathlib

/-!
# Email-Operator: reconcilers, dispatch layer and credential resolver

A shallow embedding of `internal/controller/utils_controller.go`,
`internal/controller/email_controller.go` and
`internal/controller/emailsenderconfig_controller.go`.

Go strings are modelled by Lean `String`s (a Go string holding invalid UTF-8 is
read by `regexp` as U+FFFD runes, which lie in no character class of the
pattern used here).  The object store (`client.Client`) and the two vendor
libraries are parameters of the model: a `Client` and a `Vendors` record give
the answer of every call, and every call a function makes is recorded, in
order, in a trace of `Effect`s.  Log lines, the `context.Context` and the
ten-second deadline of the vendor calls are not modelled.
-/

namespace EmailOperator

/-! ## Data model -/

/-- Key of a stored object: `client.ObjectKey` / `types.NamespacedName`. -/
structure ObjectKey where
  name : String
  Namespace : String
  deriving DecidableEq, Repr

/-- Error value returned by the object store.  `notFound` is what
`apierrors.IsNotFound` answers for it, `text` is what `err.Error()` prints. -/
structure ApiError where
  notFound : Bool
  text : String
  deriving DecidableEq, Repr

/-- Modelled from the spec: `parhamv1.EmailSpec` (package `api/v1` is not among
the sources); the fields are the ones the controllers read. -/
structure EmailSpec where
  senderConfigRef : String
  recipientEmail : String
  subject : String
  body : String
  deriving DecidableEq, Repr

/-- Modelled from the spec: `parhamv1.EmailStatus` (package `api/v1` is not
among the sources); the fields are the ones the controllers read and write. -/
structure EmailStatus where
  deliveryStatus : String
  error : String
  messageId : String
  deriving DecidableEq, Repr

/-- Modelled from the spec: `parhamv1.Email` (package `api/v1` is not among the
sources).  `deletionTimestamp` is `ObjectMeta.DeletionTimestamp`: `none` is the
nil pointer, `some t` an instant `t` nanoseconds after the zero `time.Time`. -/
structure Email where
  name : String
  Namespace : String
  deletionTimestamp : Option Nat
  spec : EmailSpec
  status : EmailStatus
  deriving DecidableEq, Repr

/-- Modelled from the spec: `parhamv1.EmailSenderConfigSpec` (package `api/v1`
is not among the sources). -/
structure EmailSenderConfigSpec where
  provider : String
  apiTokenSecretRef : String
  senderEmail : String
  deriving DecidableEq, Repr

/-- Modelled from the spec: `parhamv1.EmailSenderConfigStatus` (package
`api/v1` is not among the sources). -/
structure EmailSenderConfigStatus where
  valid : Bool
  deriving DecidableEq, Repr

/-- Modelled from the spec: `parhamv1.EmailSenderConfig` (package `api/v1` is
not among the sources). -/
structure EmailSenderConfig where
  name : String
  Namespace : String
  spec : EmailSenderConfigSpec
  status : EmailSenderConfigStatus
  deriving DecidableEq, Repr

/-- The part of `corev1.Secret` the code reads: the `Data` map, each value being
the stored bytes read as a string. -/
structure Secret where
  data : List (String × String)
  deriving DecidableEq, Repr

/-- The part of the `*http.Response` of `ms.Email.Send` that the code reads:
`StatusCode`, `Status` and `Header.Get("X-Message-Id")` (empty when the header
is absent). -/
structure HttpResponse where
  statusCode : Nat
  status : String
  xMessageId : String
  deriving DecidableEq, Repr

/-- Arguments of one MailerSend call: the token given to `NewMailersend` and the
message handed to `ms.Email.Send`. -/
structure MailerSendCall where
  apiToken : String
  fromName : String
  fromEmail : String
  recipientName : String
  recipientEmail : String
  subject : String
  text : String
  deriving DecidableEq, Repr

/-- Arguments of one Mailgun call: the domain and key given to `NewMailgun` and
the message handed to `mg.Send`. -/
structure MailgunCall where
  domain : String
  apiKey : String
  sender : String
  subject : String
  text : String
  recipient : String
  deriving DecidableEq, Repr

/-- Go `ctrl.Result`; the empty `ctrl.Result` literal is the value with both
fields zero. -/
structure Result where
  requeue : Bool := false
  requeueAfter : Nat := 0
  deriving DecidableEq, Repr

/-- The object store as the controllers see it: `Get` for the three kinds of
object and `Status().Update` for the two owned kinds (`none` is a nil error). -/
structure Client where
  getEmail : ObjectKey → Except ApiError Email
  getSenderConfig : ObjectKey → Except ApiError EmailSenderConfig
  getSecret : ObjectKey → Except ApiError Secret
  statusUpdateEmail : Email → Option ApiError
  statusUpdateSenderConfig : EmailSenderConfig → Option ApiError

/-- The two vendor libraries: `ms.Email.Send` answers a response or an error
text, `mg.Send` answers the pair (message, id) or an error text. -/
structure Vendors where
  mailerSendSend : MailerSendCall → Except String HttpResponse
  mailgunSend : MailgunCall → Except String (String × String)

/-- One call made to the outside world. -/
inductive Effect where
  | getEmail (key : ObjectKey)
  | getSenderConfig (key : ObjectKey)
  | getSecret (key : ObjectKey)
  | mailerSendSend (call : MailerSendCall)
  | mailgunSend (call : MailgunCall)
  | statusUpdateEmail (obj : Email)
  | statusUpdateSenderConfig (obj : EmailSenderConfig)
  deriving DecidableEq, Repr

/-- True for a store read of an `EmailSenderConfig`. -/
def Effect.isSenderConfigFetch : Effect → Bool
  | .getSenderConfig _ => true
  | _ => false

/-- True for a store read of a `Secret`. -/
def Effect.isSecretLookup : Effect → Bool
  | .getSecret _ => true
  | _ => false

/-- True for a call to either vendor. -/
def Effect.isProviderCall : Effect → Bool
  | .mailerSendSend _ => true
  | .mailgunSend _ => true
  | _ => false

/-- True for a write of a status subresource. -/
def Effect.isStatusWrite : Effect → Bool
  | .statusUpdateEmail _ => true
  | .statusUpdateSenderConfig _ => true
  | _ => false

/-- What one `Reconcile` call leaves behind: the returned `(ctrl.Result, error)`
pair, the in-memory object at return (`none` when the first fetch failed) and
the calls made. -/
structure Run (α : Type) where
  result : Result
  err : Option ApiError
  obj : Option α
  trace : List Effect

/-! ## `utils_controller.go` -/

/-- The characters of the range `lo-hi` of a character class. -/
def classRange (lo hi : Char) : List Char :=
  (List.range (hi.toNat + 1 - lo.toNat)).map fun i => Char.ofNat (lo.toNat + i)

/-- A character class `[...]` listing its members: the union of one `char` per
member. -/
def charClass (members : List Char) : RegularExpression Char :=
  members.foldr (fun c r => RegularExpression.char c + r) 0

/-- The class `[a-z0-9._%+\-]`. -/
def localClass : List Char :=
  classRange 'a' 'z' ++ classRange '0' '9' ++ ['.', '_', '%', '+', '-']

/-- The class `[a-z0-9.\-]`. -/
def domainClass : List Char :=
  classRange 'a' 'z' ++ classRange '0' '9' ++ ['.', '-']

/-- The class `[a-z]`. -/
def tldClass : List Char :=
  classRange 'a' 'z'

/-- Repetition `r+`. -/
def oneOrMore (r : RegularExpression Char) : RegularExpression Char :=
  r * RegularExpression.star r

/-- Repetition `r{2,}`. -/
def twoOrMore (r : RegularExpression Char) : RegularExpression Char :=
  r * (r * RegularExpression.star r)

/-- The pattern `^[a-z0-9._%+\-]+@[a-z0-9.\-]+\.[a-z]{2,}$` between its two
anchors. -/
def emailPattern : RegularExpression Char :=
  oneOrMore (charClass localClass) *
    (RegularExpression.char '@' *
      (oneOrMore (charClass domainClass) *
        (RegularExpression.char '.' * twoOrMore (charClass tldClass))))

/-- Go `isValidEmail`: `MatchString` of a pattern anchored at both ends (no flag
is set, so `$` is the end of the text) is a match of the whole string. -/
def isValidEmail (email : String) : Bool :=
  emailPattern.rmatch email.toList

/-- Go `strings.Split(s, sep)` for a one-character separator, on the characters
of `s`: the pieces between the separators, one more than there are separators. -/
def stringsSplit (sep : Char) : List Char → List (List Char)
  | [] => [[]]
  | c :: cs =>
    if c = sep then [] :: stringsSplit sep cs
    else
      match stringsSplit sep cs with
      | [] => [[c]]
      | p :: ps => (c :: p) :: ps

/-- Go `getApiTokenFromSecret`: the record in `namespace`, and when that `Get`
fails the record in `"default"`; then the value under `secretKey`. -/
def getApiTokenFromSecret (c : Client) (Namespace secretName secretKey : String) :
    Except String String × List Effect :=
  let first : ObjectKey := { name := secretName, Namespace := Namespace }
  let second : ObjectKey := { name := secretName, Namespace := "default" }
  let token (secret : Secret) : Except String String :=
    match secret.data.lookup secretKey with
    | none => .error ("secret " ++ secretName ++ " does not contain key " ++ secretKey)
    | some tokenBase64 => .ok tokenBase64
  match c.getSecret first with
  | .ok secret => (token secret, [.getSecret first])
  | .error _ =>
    match c.getSecret second with
    | .error err =>
      (.error ("unable to fetch secret " ++ secretName ++ ": " ++ err.text),
        [.getSecret first, .getSecret second])
    | .ok secret => (token secret, [.getSecret first, .getSecret second])

/-- Go `sendEmailMessageMailerSend`. -/
def sendEmailMessageMailerSend (v : Vendors) (senderConfig : EmailSenderConfig)
    (recipientEmail subject body apiToken : String) : Except String String × List Effect :=
  let message : MailerSendCall :=
    { apiToken := apiToken
      fromName := senderConfig.spec.senderEmail
      fromEmail := senderConfig.spec.senderEmail
      recipientName := "Recipient"
      recipientEmail := recipientEmail
      subject := subject
      text := body }
  match v.mailerSendSend message with
  | .error err => (.error err, [.mailerSendSend message])
  | .ok res =>
    if res.statusCode ≠ 202 then
      (.error ("error response from MailerSend: " ++ res.status), [.mailerSendSend message])
    else (.ok res.xMessageId, [.mailerSendSend message])

/-- Go `sendEmailMessageMailgun`. -/
def sendEmailMessageMailgun (v : Vendors) (senderConfig : EmailSenderConfig)
    (recipientEmail subject body apiToken : String) : Except String String × List Effect :=
  match stringsSplit '@' senderConfig.spec.senderEmail.toList with
  | [_, domain] =>
    let m : MailgunCall :=
      { domain := String.mk domain
        apiKey := apiToken
        sender := senderConfig.spec.senderEmail
        subject := subject
        text := body
        recipient := recipientEmail }
    match v.mailgunSend m with
    | .error err => (.error err, [.mailgunSend m])
    | .ok (_, id) => (.ok id, [.mailgunSend m])
  | _ => (.error "invalid sender email format", [])

/-- Go `sendEmailMessage`. -/
def sendEmailMessage (c : Client) (v : Vendors) (senderConfig : EmailSenderConfig)
    (recipientEmail subject body : String) : Except String String × List Effect :=
  if !isValidEmail recipientEmail then
    (.error "email must be a valid email address", [])
  else
    match getApiTokenFromSecret c senderConfig.Namespace senderConfig.spec.apiTokenSecretRef
        "apiToken" with
    | (.error err, t₁) => (.error ("failed to retrieve API token: " ++ err), t₁)
    | (.ok apiToken, t₁) =>
      if senderConfig.spec.provider = "MailerSend" then
        match sendEmailMessageMailerSend v senderConfig recipientEmail subject body apiToken with
        | (.error err, t₂) => (.error ("failed to send email: " ++ err), t₁ ++ t₂)
        | (.ok id, t₂) => (.ok id, t₁ ++ t₂)
      else
        match sendEmailMessageMailgun v senderConfig recipientEmail subject body apiToken with
        | (.error err, t₂) => (.error ("failed to send email: " ++ err), t₁ ++ t₂)
        | (.ok id, t₂) => (.ok id, t₁ ++ t₂)

/-! ## `email_controller.go` -/

/-- Go `client.IgnoreNotFound`. -/
def ignoreNotFound (err : ApiError) : Option ApiError :=
  if err.notFound then none else some err

/-- Go `metav1.Time.IsZero` on a `*metav1.Time`: nil, or the zero instant. -/
def timeIsZero : Option Nat → Bool
  | none => true
  | some t => t == 0

/-- Go `updateEmailStatus`: returns the in-memory object after the call and the
write made, if any.  A failed write (`some _`) is logged and nothing else. -/
def updateEmailStatus (c : Client) (email : Email) (status errMsg : String) :
    Email × List Effect :=
  if email.status.deliveryStatus = status ∧ email.status.error = errMsg then
    (email, [])
  else
    let email₁ : Email :=
      { email with status := { email.status with deliveryStatus := status, error := errMsg } }
    match c.statusUpdateEmail email₁ with
    | some _ => (email₁, [.statusUpdateEmail email₁])
    | none => (email₁, [.statusUpdateEmail email₁])

/-- Go `EmailReconciler.Reconcile`. -/
def EmailReconciler.Reconcile (c : Client) (v : Vendors) (req : ObjectKey) : Run Email :=
  match c.getEmail req with
  | .error err => { result := {}, err := ignoreNotFound err, obj := none, trace := [.getEmail req] }
  | .ok email =>
    if email.status.deliveryStatus = "Sent" then
      { result := {}, err := none, obj := some email, trace := [.getEmail req] }
    else if !timeIsZero email.deletionTimestamp then
      { result := {}, err := none, obj := some email, trace := [.getEmail req] }
    else
      let scKey : ObjectKey := { name := email.spec.senderConfigRef, Namespace := req.Namespace }
      match c.getSenderConfig scKey with
      | .error err =>
        let w := updateEmailStatus c email "Failed" ("unable to fetch EmailSenderConfig: " ++ err.text)
        { result := {}, err := none, obj := some w.1,
          trace := [.getEmail req, .getSenderConfig scKey] ++ w.2 }
      | .ok senderConfig =>
        if !senderConfig.status.valid then
          let w := updateEmailStatus c email "Failed"
            ("failed to send email: " ++ "the emailsenderconfig is not valid")
          { result := {}, err := none, obj := some w.1,
            trace := [.getEmail req, .getSenderConfig scKey] ++ w.2 }
        else
          match sendEmailMessage c v senderConfig email.spec.recipientEmail email.spec.subject
              email.spec.body with
          | (.error err, t) =>
            let w := updateEmailStatus c email "Failed" ("failed to send email: " ++ err)
            { result := {}, err := none, obj := some w.1,
              trace := [.getEmail req, .getSenderConfig scKey] ++ t ++ w.2 }
          | (.ok id, t) =>
            let email₁ : Email := { email with status := { email.status with messageId := id } }
            let w := updateEmailStatus c email₁ "Sent" ""
            { result := {}, err := none, obj := some w.1,
              trace := [.getEmail req, .getSenderConfig scKey] ++ t ++ w.2 }

/-! ## `emailsenderconfig_controller.go` -/

/-- Go `updateEmailSenderConfigStatus`: returns the in-memory object after the
call and the write made, if any.  A failed write (`some _`) is logged and
nothing else. -/
def updateEmailSenderConfigStatus (c : Client) (config : EmailSenderConfig) (status : Bool) :
    EmailSenderConfig × List Effect :=
  if config.status.valid = status then (config, [])
  else
    let config₁ : EmailSenderConfig := { config with status := { valid := status } }
    match c.statusUpdateSenderConfig config₁ with
    | some _ => (config₁, [.statusUpdateSenderConfig config₁])
    | none => (config₁, [.statusUpdateSenderConfig config₁])

/-- Go `EmailSenderConfigReconciler.Reconcile`. -/
def EmailSenderConfigReconciler.Reconcile (c : Client) (v : Vendors) (req : ObjectKey) :
    Run EmailSenderConfig :=
  match c.getSenderConfig req with
  | .error err =>
    { result := {}, err := ignoreNotFound err, obj := none, trace := [.getSenderConfig req] }
  | .ok senderConfig =>
    if senderConfig.status.valid then
      { result := {}, err := none, obj := some senderConfig, trace := [.getSenderConfig req] }
    else
      match sendEmailMessage c v senderConfig "parham.dskn@gmail.com" "Test Email"
          "This is a test email to verify the EmailSenderConfig." with
      | (.error _, t) =>
        let w := updateEmailSenderConfigStatus c senderConfig false
        { result := {}, err := none, obj := some w.1, trace := [.getSenderConfig req] ++ t ++ w.2 }
      | (.ok _, t) =>
        let w := updateEmailSenderConfigStatus c senderConfig true
        { result := {}, err := none, obj := some w.1, trace := [.getSenderConfig req] ++ t ++ w.2 }

/-! ## Reference predicates and fixtures -/

/-- The address shape of the dispatch section of the specification: a non-empty
local part of letters, digits and `._%+-`, one `@`, a non-empty domain of
letters, digits, `.` and `-`, a dot, and a final label of at least two letters.
`letter` says which characters count as letters. -/
def AddressShape (letter : Char → Bool) (s : List Char) : Prop :=
  ∃ l d t : List Char, s = l ++ '@' :: (d ++ '.' :: t) ∧
    (l ≠ [] ∧ ∀ c ∈ l, letter c = true ∨ c.isDigit = true ∨ c ∈ ['.', '_', '%', '+', '-']) ∧
    (d ≠ [] ∧ ∀ c ∈ d, letter c = true ∨ c.isDigit = true ∨ c ∈ ['.', '-']) ∧
    (2 ≤ t.length ∧ ∀ c ∈ t, letter c = true)

/-- The value stored under `key`, or the missing-key error naming the record. -/
def tokenOf (secretName key : String) (secret : Secret) : Except String String :=
  match secret.data.lookup key with
  | none => .error ("secret " ++ secretName ++ " does not contain key " ++ key)
  | some value => .ok value

/-- The status an `Email` carries after a failure with text `msg`. -/
def failedStatus (old : EmailStatus) (msg : String) : EmailStatus :=
  { deliveryStatus := "Failed", error := msg, messageId := old.messageId }

/-- The not-found error of the store. -/
def fixtureNotFound : ApiError :=
  { notFound := true, text := "not found" }

/-- An error of the store other than not-found. -/
def fixtureForbidden : ApiError :=
  { notFound := false, text := "forbidden" }

/-- A store answering every `Get` of a kind with one fixed answer and accepting
every status write. -/
def fixtureClient (email : Except ApiError Email) (config : Except ApiError EmailSenderConfig)
    (secret : ObjectKey → Except ApiError Secret) : Client :=
  { getEmail := fun _ => email
    getSenderConfig := fun _ => config
    getSecret := secret
    statusUpdateEmail := fun _ => none
    statusUpdateSenderConfig := fun _ => none }

/-- Vendors that accept every message and hand out the id `id`. -/
def fixtureVendors (id : String) : Vendors :=
  { mailerSendSend := fun _ => .ok { statusCode := 202, status := "202 Accepted", xMessageId := id }
    mailgunSend := fun _ => .ok ("Queued. Thank you.", id) }

/-- Vendors that reject every message with the text `text`. -/
def fixtureRejecting (text : String) : Vendors :=
  { mailerSendSend := fun _ => .error text
    mailgunSend := fun _ => .error text }

/-- A sender configuration named `cfg` in namespace `ns`. -/
def fixtureConfig (provider : String) (valid : Bool) : EmailSenderConfig :=
  { name := "cfg", Namespace := "ns"
    spec := { provider := provider, apiTokenSecretRef := "tok", senderEmail := "me@mail.example.org" }
    status := { valid := valid } }

/-- An email named `mail` in namespace `ns` that refers to `cfg`. -/
def fixtureEmail (recipient : String) (status : EmailStatus) (deletion : Option Nat) : Email :=
  { name := "mail", Namespace := "ns", deletionTimestamp := deletion
    spec := { senderConfigRef := "cfg", recipientEmail := recipient, subject := "Hi", body := "Hello" }
    status := status }

/-- Secrets of a store that holds the record `tok` in namespace `"default"` only. -/
def fixtureFallbackSecrets (key : ObjectKey) : Except ApiError Secret :=
  if key = { name := "tok", Namespace := "default" } then .ok { data := [("apiToken", "s3cr3t")] }
  else .error fixtureNotFound

/-- Secrets of a store that holds no record. -/
def fixtureNoSecrets (_key : ObjectKey) : Except ApiError Secret :=
  .error fixtureNotFound

/-- The request for the object `mail` in namespace `ns`. -/
def fixtureRequest : ObjectKey :=
  { name := "mail", Namespace := "ns" }

open RegularExpression

/-! ## Lemmas on characters and on the pattern -/

theorem isLower_iff_toNat (c : Char) : c.isLower = true ↔ 97 ≤ c.toNat ∧ c.toNat ≤ 122 := by
  simp only [Char.isLower, Bool.and_eq_true, decide_eq_true_eq, ge_iff_le, UInt32.le_def,
    BitVec.le_def]
  exact Iff.rfl

theorem isUpper_iff_toNat (c : Char) : c.isUpper = true ↔ 65 ≤ c.toNat ∧ c.toNat ≤ 90 := by
  simp only [Char.isUpper, Bool.and_eq_true, decide_eq_true_eq, ge_iff_le, UInt32.le_def,
    BitVec.le_def]
  exact Iff.rfl

theorem isDigit_iff_toNat (c : Char) : c.isDigit = true ↔ 48 ≤ c.toNat ∧ c.toNat ≤ 57 := by
  simp only [Char.isDigit, Bool.and_eq_true, decide_eq_true_eq, ge_iff_le, UInt32.le_def,
    BitVec.le_def]
  exact Iff.rfl

theorem toNat_ofNat_of_lt (n : Nat) (h : n < 0xd800) : (Char.ofNat n).toNat = n := by
  have hv : n.isValidChar := Or.inl h
  simp only [Char.ofNat, hv, dite_true]
  rfl

theorem mem_classRange (lo hi c : Char) (hhi : hi.toNat < 0xd800) :
    c ∈ classRange lo hi ↔ lo.toNat ≤ c.toNat ∧ c.toNat ≤ hi.toNat := by
  unfold classRange
  rw [List.mem_map]
  constructor
  · rintro ⟨i, hi', rfl⟩
    rw [List.mem_range] at hi'
    rw [toNat_ofNat_of_lt _ (by omega)]
    omega
  · rintro ⟨h₁, h₂⟩
    refine ⟨c.toNat - lo.toNat, ?_, ?_⟩
    · rw [List.mem_range]; omega
    · rw [show lo.toNat + (c.toNat - lo.toNat) = c.toNat by omega, Char.ofNat_toNat]

theorem mem_lowerRange (c : Char) : c ∈ classRange 'a' 'z' ↔ c.isLower = true := by
  rw [mem_classRange _ _ _ (by decide), isLower_iff_toNat]
  exact Iff.rfl

theorem mem_digitRange (c : Char) : c ∈ classRange '0' '9' ↔ c.isDigit = true := by
  rw [mem_classRange _ _ _ (by decide), isDigit_iff_toNat]
  exact Iff.rfl

theorem charClass_rmatch_iff (members : List Char) (x : List Char) :
    (charClass members).rmatch x = true ↔ ∃ c ∈ members, x = [c] := by
  induction members with
  | nil => simp [charClass]
  | cons a as ih =>
    have h : charClass (a :: as) = char a + charClass as := rfl
    rw [h, add_rmatch_iff, char_rmatch_iff, ih]
    simp

theorem star_charClass_rmatch_iff (members : List Char) (x : List Char) :
    (star (charClass members)).rmatch x = true ↔ ∀ c ∈ x, c ∈ members := by
  rw [star_rmatch_iff]
  constructor
  · rintro ⟨S, rfl, hS⟩ c hc
    rw [List.mem_flatten] at hc
    obtain ⟨t, ht, hct⟩ := hc
    obtain ⟨d, hd, rfl⟩ := (charClass_rmatch_iff members t).1 (hS t ht).2
    rw [List.mem_singleton] at hct
    exact hct ▸ hd
  · intro h
    refine ⟨x.map fun c => [c], ?_, ?_⟩
    · clear h
      induction x with
      | nil => rfl
      | cons a as ih => simp [List.flatten] at ih ⊢; exact ih
    · intro t ht
      rw [List.mem_map] at ht
      obtain ⟨c, hc, rfl⟩ := ht
      exact ⟨by simp, (charClass_rmatch_iff members [c]).2 ⟨c, h c hc, rfl⟩⟩

theorem oneOrMore_rmatch_iff (members : List Char) (x : List Char) :
    (oneOrMore (charClass members)).rmatch x = true ↔ x ≠ [] ∧ ∀ c ∈ x, c ∈ members := by
  unfold oneOrMore
  rw [mul_rmatch_iff]
  constructor
  · rintro ⟨t, u, rfl, ht, hu⟩
    obtain ⟨d, hd, rfl⟩ := (charClass_rmatch_iff members t).1 ht
    rw [star_charClass_rmatch_iff] at hu
    refine ⟨by simp, ?_⟩
    intro c hc
    simp only [List.singleton_append, List.mem_cons] at hc
    rcases hc with rfl | hc
    · exact hd
    · exact hu c hc
  · rintro ⟨hne, h⟩
    cases x with
    | nil => exact absurd rfl hne
    | cons a as =>
      refine ⟨[a], as, rfl, (charClass_rmatch_iff members [a]).2 ⟨a, h a (by simp), rfl⟩, ?_⟩
      rw [star_charClass_rmatch_iff]
      intro c hc
      exact h c (by simp [hc])

theorem twoOrMore_rmatch_iff (members : List Char) (x : List Char) :
    (twoOrMore (charClass members)).rmatch x = true ↔ 2 ≤ x.length ∧ ∀ c ∈ x, c ∈ members := by
  have h : twoOrMore (charClass members) = charClass members * oneOrMore (charClass members) := rfl
  rw [h, mul_rmatch_iff]
  constructor
  · rintro ⟨t, u, rfl, ht, hu⟩
    obtain ⟨d, hd, rfl⟩ := (charClass_rmatch_iff members t).1 ht
    rw [oneOrMore_rmatch_iff] at hu
    obtain ⟨hne, hu⟩ := hu
    refine ⟨?_, ?_⟩
    · cases u with
      | nil => exact absurd rfl hne
      | cons b bs => simp
    · intro c hc
      simp only [List.singleton_append, List.mem_cons] at hc
      rcases hc with rfl | hc
      · exact hd
      · exact hu c hc
  · rintro ⟨hlen, h⟩
    cases x with
    | nil => simp at hlen
    | cons a as =>
      refine ⟨[a], as, rfl, (charClass_rmatch_iff members [a]).2 ⟨a, h a (by simp), rfl⟩, ?_⟩
      rw [oneOrMore_rmatch_iff]
      refine ⟨?_, fun c hc => h c (by simp [hc])⟩
      rintro rfl
      simp at hlen

theorem emailPattern_rmatch_iff (x : List Char) :
    emailPattern.rmatch x = true ↔
      ∃ l d t : List Char, x = l ++ '@' :: (d ++ '.' :: t) ∧
        (l ≠ [] ∧ ∀ c ∈ l, c ∈ localClass) ∧
        (d ≠ [] ∧ ∀ c ∈ d, c ∈ domainClass) ∧
        (2 ≤ t.length ∧ ∀ c ∈ t, c ∈ tldClass) := by
  unfold emailPattern
  simp only [mul_rmatch_iff, char_rmatch_iff, oneOrMore_rmatch_iff, twoOrMore_rmatch_iff]
  constructor
  · rintro ⟨l, r₁, rfl, hl, a, r₂, rfl, rfl, d, r₃, rfl, hd, b, t, rfl, rfl, ht⟩
    exact ⟨l, d, t, by simp, hl, hd, ht⟩
  · rintro ⟨l, d, t, rfl, hl, hd, ht⟩
    exact ⟨l, _, rfl, hl, ['@'], _, rfl, rfl, d, _, rfl, hd, ['.'], t, rfl, rfl, ht⟩

theorem mem_localClass (c : Char) :
    c ∈ localClass ↔ c.isLower = true ∨ c.isDigit = true ∨ c ∈ ['.', '_', '%', '+', '-'] := by
  unfold localClass
  rw [List.mem_append, List.mem_append, mem_lowerRange, mem_digitRange, or_assoc]

theorem mem_domainClass (c : Char) :
    c ∈ domainClass ↔ c.isLower = true ∨ c.isDigit = true ∨ c ∈ ['.', '-'] := by
  unfold domainClass
  rw [List.mem_append, List.mem_append, mem_lowerRange, mem_digitRange, or_assoc]

theorem isValidEmail_iff_shape (s : String) :
    isValidEmail s = true ↔ AddressShape Char.isLower s.toList := by
  unfold isValidEmail AddressShape
  rw [emailPattern_rmatch_iff]
  simp only [mem_localClass, mem_domainClass, tldClass, mem_lowerRange]

/-! ## Lemmas on the status writers and on the traces -/

theorem updateEmailStatus_eq (c : Client) (email : Email) (status errMsg : String) :
    updateEmailStatus c email status errMsg =
      if email.status.deliveryStatus = status ∧ email.status.error = errMsg then (email, [])
      else
        ({ email with status := { email.status with deliveryStatus := status, error := errMsg } },
          [.statusUpdateEmail
            { email with
              status := { email.status with deliveryStatus := status, error := errMsg } }]) := by
  unfold updateEmailStatus
  split
  · rfl
  · dsimp only
    split <;> rfl

theorem updateEmailSenderConfigStatus_eq (c : Client) (config : EmailSenderConfig)
    (status : Bool) :
    updateEmailSenderConfigStatus c config status =
      if config.status.valid = status then (config, [])
      else
        ({ config with status := { valid := status } },
          [.statusUpdateSenderConfig { config with status := { valid := status } }]) := by
  unfold updateEmailSenderConfigStatus
  split
  · rfl
  · dsimp only
    split <;> rfl

theorem getApiTokenFromSecret_trace (c : Client) (ns secretName secretKey : String) :
    ∀ e ∈ (getApiTokenFromSecret c ns secretName secretKey).2, e.isSecretLookup = true := by
  unfold getApiTokenFromSecret
  dsimp only
  split
  · simp [Effect.isSecretLookup]
  · split <;> simp [Effect.isSecretLookup]

theorem sendEmailMessageMailerSend_trace (v : Vendors) (sc : EmailSenderConfig)
    (recipient subject body token : String) :
    ∀ x ∈ (sendEmailMessageMailerSend v sc recipient subject body token).2,
      x.isProviderCall = true := by
  unfold sendEmailMessageMailerSend
  dsimp only
  split
  · simp [Effect.isProviderCall]
  · split <;> simp [Effect.isProviderCall]

theorem sendEmailMessageMailgun_trace (v : Vendors) (sc : EmailSenderConfig)
    (recipient subject body token : String) :
    ∀ x ∈ (sendEmailMessageMailgun v sc recipient subject body token).2,
      x.isProviderCall = true := by
  unfold sendEmailMessageMailgun
  split
  · dsimp only
    split <;> simp [Effect.isProviderCall]
  · simp

theorem sendEmailMessage_trace (c : Client) (v : Vendors) (sc : EmailSenderConfig)
    (recipient subject body : String) :
    ∀ x ∈ (sendEmailMessage c v sc recipient subject body).2,
      x.isSecretLookup = true ∨ x.isProviderCall = true := by
  have hcred := getApiTokenFromSecret_trace c sc.Namespace sc.spec.apiTokenSecretRef "apiToken"
  unfold sendEmailMessage
  split
  · simp
  · split
    · rename_i e t₁ heq
      rw [heq] at hcred
      intro x hx
      exact Or.inl (hcred x hx)
    · rename_i token t₁ heq
      rw [heq] at hcred
      have hms := sendEmailMessageMailerSend_trace v sc recipient subject body token
      have hmg := sendEmailMessageMailgun_trace v sc recipient subject body token
      split
      · split
        · rename_i e t₂ heq₂
          rw [heq₂] at hms
          intro x hx
          rcases List.mem_append.1 hx with h | h
          · exact Or.inl (hcred x h)
          · exact Or.inr (hms x h)
        · rename_i id t₂ heq₂
          rw [heq₂] at hms
          intro x hx
          rcases List.mem_append.1 hx with h | h
          · exact Or.inl (hcred x h)
          · exact Or.inr (hms x h)
      · split
        · rename_i e t₂ heq₂
          rw [heq₂] at hmg
          intro x hx
          rcases List.mem_append.1 hx with h | h
          · exact Or.inl (hcred x h)
          · exact Or.inr (hmg x h)
        · rename_i id t₂ heq₂
          rw [heq₂] at hmg
          intro x hx
          rcases List.mem_append.1 hx with h | h
          · exact Or.inl (hcred x h)
          · exact Or.inr (hmg x h)

theorem sendEmailMessage_trace_no_write (c : Client) (v : Vendors) (sc : EmailSenderConfig)
    (recipient subject body : String) :
    (sendEmailMessage c v sc recipient subject body).2.filter Effect.isStatusWrite = [] := by
  rw [List.filter_eq_nil_iff]
  intro x hx
  rcases sendEmailMessage_trace c v sc recipient subject body x hx with h | h <;>
    cases x <;> simp_all [Effect.isSecretLookup, Effect.isProviderCall, Effect.isStatusWrite]

theorem sendEmailMessage_trace_no_config_fetch (c : Client) (v : Vendors)
    (sc : EmailSenderConfig) (recipient subject body : String) :
    (sendEmailMessage c v sc recipient subject body).2.filter Effect.isSenderConfigFetch = [] := by
  rw [List.filter_eq_nil_iff]
  intro x hx
  rcases sendEmailMessage_trace c v sc recipient subject body x hx with h | h <;>
    cases x <;> simp_all [Effect.isSecretLookup, Effect.isProviderCall, Effect.isSenderConfigFetch]

theorem updateEmailStatus_trace_no_config_fetch (c : Client) (email : Email)
    (status errMsg : String) :
    (updateEmailStatus c email status errMsg).2.filter Effect.isSenderConfigFetch = [] := by
  rw [updateEmailStatus_eq]
  split <;> simp [Effect.isSenderConfigFetch]

/-- The run of `EmailReconciler.Reconcile` once the Email is fetched, is not
"Sent" and is not marked for deletion, and the SenderConfig fetch failed. -/
theorem reconcile_of_config_error (c : Client) (v : Vendors) (req : ObjectKey) (email : Email)
    (err : ApiError)
    (hget : c.getEmail req = .ok email) (hns : email.status.deliveryStatus ≠ "Sent")
    (hdel : timeIsZero email.deletionTimestamp = true)
    (hsc : c.getSenderConfig
      { name := email.spec.senderConfigRef, Namespace := req.Namespace } = .error err) :
    EmailReconciler.Reconcile c v req =
      { result := {}, err := none,
        obj := some (updateEmailStatus c email "Failed"
          ("unable to fetch EmailSenderConfig: " ++ err.text)).1,
        trace := [.getEmail req, .getSenderConfig
            { name := email.spec.senderConfigRef, Namespace := req.Namespace }] ++
          (updateEmailStatus c email "Failed"
            ("unable to fetch EmailSenderConfig: " ++ err.text)).2 } := by
  unfold EmailReconciler.Reconcile
  rw [hget]
  simp only [hns, hdel, hsc, if_false, Bool.not_true, Bool.false_eq_true]

/-- The run once the Email is fetched, is not "Sent" and is not marked for
deletion, and the SenderConfig is fetched. -/
theorem reconcile_of_config (c : Client) (v : Vendors) (req : ObjectKey) (email : Email)
    (sc : EmailSenderConfig)
    (hget : c.getEmail req = .ok email) (hns : email.status.deliveryStatus ≠ "Sent")
    (hdel : timeIsZero email.deletionTimestamp = true)
    (hsc : c.getSenderConfig
      { name := email.spec.senderConfigRef, Namespace := req.Namespace } = .ok sc) :
    EmailReconciler.Reconcile c v req =
      if sc.status.valid = false then
        { result := {}, err := none,
          obj := some (updateEmailStatus c email "Failed"
            "failed to send email: the emailsenderconfig is not valid").1,
          trace := [.getEmail req, .getSenderConfig
              { name := email.spec.senderConfigRef, Namespace := req.Namespace }] ++
            (updateEmailStatus c email "Failed"
              "failed to send email: the emailsenderconfig is not valid").2 }
      else
        match sendEmailMessage c v sc email.spec.recipientEmail email.spec.subject
            email.spec.body with
        | (.error e, t) =>
          { result := {}, err := none,
            obj := some (updateEmailStatus c email "Failed" ("failed to send email: " ++ e)).1,
            trace := [.getEmail req, .getSenderConfig
                { name := email.spec.senderConfigRef, Namespace := req.Namespace }] ++ t ++
              (updateEmailStatus c email "Failed" ("failed to send email: " ++ e)).2 }
        | (.ok id, t) =>
          { result := {}, err := none,
            obj := some (updateEmailStatus c
              { email with status := { email.status with messageId := id } } "Sent" "").1,
            trace := [.getEmail req, .getSenderConfig
                { name := email.spec.senderConfigRef, Namespace := req.Namespace }] ++ t ++
              (updateEmailStatus c
                { email with status := { email.status with messageId := id } } "Sent" "").2 } := by
  have hmsg : "failed to send email: " ++ "the emailsenderconfig is not valid" =
      "failed to send email: the emailsenderconfig is not valid" := by decide
  unfold EmailReconciler.Reconcile
  rw [hget]
  simp only [hns, hdel, hsc, if_false, Bool.not_true, Bool.false_eq_true, hmsg]
  cases sc.status.valid <;> simp

theorem updateEmailStatus_fst (c : Client) (email : Email) (status errMsg : String) :
    (updateEmailStatus c email status errMsg).1 =
      { email with status := { email.status with deliveryStatus := status, error := errMsg } } := by
  rw [updateEmailStatus_eq]
  split
  · rename_i h
    obtain ⟨h₁, h₂⟩ := h
    subst h₁ h₂
    rfl
  · rfl

theorem updateEmailStatus_snd (c : Client) (email : Email) (status errMsg : String) :
    (updateEmailStatus c email status errMsg).2 =
      if email.status.deliveryStatus = status ∧ email.status.error = errMsg then []
      else
        [.statusUpdateEmail
          { email with
            status := { email.status with deliveryStatus := status, error := errMsg } }] := by
  rw [updateEmailStatus_eq]
  split <;> rfl

theorem sendEmailMessage_of_invalid (c : Client) (v : Vendors) (sc : EmailSenderConfig)
    (recipient subject body : String) (h : isValidEmail recipient = false) :
    sendEmailMessage c v sc recipient subject body =
      (.error "email must be a valid email address", []) := by
  simp [sendEmailMessage, h]

theorem not_isValidEmail_of_no_at (s : String) (h : '@' ∉ s.toList) :
    isValidEmail s = false := by
  rw [Bool.eq_false_iff, Ne, isValidEmail_iff_shape]
  rintro ⟨l, d, t, hs, -⟩
  exact h (by rw [hs]; simp)

/-! ## Claims -/

/-- C1: when the first fetch returns an Email whose deliveryState is "Sent",
`EmailReconciler.Reconcile` makes no call besides that fetch (no SenderConfig
fetch, no credential lookup, no provider call, no status write), hands back the
object as fetched (deliveryState, error and message id untouched) and returns
`Result{}` with a nil error, whatever the spec and the deletion mark are. -/
theorem reconcile_sent_is_noop (c : Client) (v : Vendors) (req : ObjectKey) (email : Email)
    (hget : c.getEmail req = .ok email) (hsent : email.status.deliveryStatus = "Sent") :
    EmailReconciler.Reconcile c v req =
      { result := {}, err := none, obj := some email, trace := [.getEmail req] } := by
  unfold EmailReconciler.Reconcile
  rw [hget]
  simp [hsent]

/-- Witness of C1: an Email already "Sent" and marked for deletion. -/
theorem reconcile_sent_is_noop_witness :
    EmailReconciler.Reconcile
        (fixtureClient (.ok (fixtureEmail "x@y.zz" ⟨"Sent", "", "id-1"⟩ (some 7)))
          (.ok (fixtureConfig "MailerSend" true)) fixtureFallbackSecrets)
        (fixtureVendors "id-2") fixtureRequest =
      { result := {}, err := none,
        obj := some (fixtureEmail "x@y.zz" ⟨"Sent", "", "id-1"⟩ (some 7)),
        trace := [.getEmail fixtureRequest] } :=
  reconcile_sent_is_noop _ _ _ _ rfl rfl

/-- C2 (amended): `isValidEmail s` holds exactly when `s` is a non-empty local
part of lower-case letters, digits and `._%+-`, one `@`, a non-empty domain of
lower-case letters, digits, `.` and `-`, a dot, and a final label of at least
two lower-case letters. -/
theorem isValidEmail_iff_lowercase_shape (s : String) :
    isValidEmail s = true ↔ AddressShape Char.isLower s.toList :=
  isValidEmail_iff_shape s

/-- C2 as stated fails: "A@b.co" has the shape with letters of either case, and
`isValidEmail` rejects it. -/
theorem isValidEmail_rejects_upper_case :
    AddressShape Char.isAlpha "A@b.co".toList ∧ isValidEmail "A@b.co" = false :=
  ⟨⟨['A'], ['b'], ['c', 'o'], rfl, ⟨by decide, by decide⟩, ⟨by decide, by decide⟩,
      ⟨by decide, by decide⟩⟩, by decide⟩

/-- C3: `sendEmailMessage` decides its result in this order (a returned
`.error e` is the Go pair of an empty id and the error `e`): (1) a recipient
that fails `isValidEmail` gives "email must be a valid email address" and no
call at all; (2) otherwise a failed credential resolution with text `e` gives
"failed to retrieve API token: " followed by `e`, and the only calls are the
secret lookups of the resolution; (3) otherwise a failure `e` of the variant
selected by the provider name gives "failed to send email: " followed by `e`;
(4) otherwise the id of the variant is returned. -/
theorem sendEmailMessage_error_order (c : Client) (v : Vendors) (sc : EmailSenderConfig)
    (recipient subject body : String) :
    (isValidEmail recipient = false →
      sendEmailMessage c v sc recipient subject body =
        (.error "email must be a valid email address", [])) ∧
    (∀ e t, isValidEmail recipient = true →
      getApiTokenFromSecret c sc.Namespace sc.spec.apiTokenSecretRef "apiToken" = (.error e, t) →
      sendEmailMessage c v sc recipient subject body =
          (.error ("failed to retrieve API token: " ++ e), t) ∧
        ∀ x ∈ t, x.isProviderCall = false) ∧
    (∀ token t e t₁, isValidEmail recipient = true →
      getApiTokenFromSecret c sc.Namespace sc.spec.apiTokenSecretRef "apiToken" = (.ok token, t) →
      (if sc.spec.provider = "MailerSend" then
          sendEmailMessageMailerSend v sc recipient subject body token
        else sendEmailMessageMailgun v sc recipient subject body token) = (.error e, t₁) →
      sendEmailMessage c v sc recipient subject body =
        (.error ("failed to send email: " ++ e), t ++ t₁)) ∧
    (∀ token t id t₁, isValidEmail recipient = true →
      getApiTokenFromSecret c sc.Namespace sc.spec.apiTokenSecretRef "apiToken" = (.ok token, t) →
      (if sc.spec.provider = "MailerSend" then
          sendEmailMessageMailerSend v sc recipient subject body token
        else sendEmailMessageMailgun v sc recipient subject body token) = (.ok id, t₁) →
      sendEmailMessage c v sc recipient subject body = (.ok id, t ++ t₁)) := by
  refine ⟨?_, ?_, ?_, ?_⟩
  · intro h
    simp [sendEmailMessage, h]
  · intro e t h hcred
    refine ⟨by simp [sendEmailMessage, h, hcred], ?_⟩
    intro x hx
    have := getApiTokenFromSecret_trace c sc.Namespace sc.spec.apiTokenSecretRef "apiToken" x
      (by rw [hcred]; exact hx)
    cases x <;> simp_all [Effect.isSecretLookup, Effect.isProviderCall]
  · intro token t e t₁ h hcred hvar
    by_cases hp : sc.spec.provider = "MailerSend"
    · rw [if_pos hp] at hvar
      simp [sendEmailMessage, h, hcred, hp, hvar]
    · rw [if_neg hp] at hvar
      simp [sendEmailMessage, h, hcred, hp, hvar]
  · intro token t id t₁ h hcred hvar
    by_cases hp : sc.spec.provider = "MailerSend"
    · rw [if_pos hp] at hvar
      simp [sendEmailMessage, h, hcred, hp, hvar]
    · rw [if_neg hp] at hvar
      simp [sendEmailMessage, h, hcred, hp, hvar]

/-- Witness of C3: one run per clause (invalid recipient; no secret in either
namespace; a rejecting vendor; an accepting vendor). -/
theorem sendEmailMessage_error_order_witness :
    sendEmailMessage (fixtureClient (.error fixtureNotFound) (.error fixtureNotFound)
        fixtureFallbackSecrets) (fixtureVendors "id-2") (fixtureConfig "MailerSend" true)
        "invalid-email-format" "Hi" "Hello" =
      (.error "email must be a valid email address", []) ∧
    sendEmailMessage (fixtureClient (.error fixtureNotFound) (.error fixtureNotFound)
        fixtureNoSecrets) (fixtureVendors "id-2") (fixtureConfig "MailerSend" true)
        "x@y.zz" "Hi" "Hello" =
      (.error ("failed to retrieve API token: " ++ "unable to fetch secret tok: not found"),
        [.getSecret { name := "tok", Namespace := "ns" },
          .getSecret { name := "tok", Namespace := "default" }]) ∧
    sendEmailMessage (fixtureClient (.error fixtureNotFound) (.error fixtureNotFound)
        fixtureFallbackSecrets) (fixtureRejecting "401 Unauthenticated")
        (fixtureConfig "Mailgun" true) "x@y.zz" "Hi" "Hello" =
      (.error ("failed to send email: " ++ "401 Unauthenticated"),
        [.getSecret { name := "tok", Namespace := "ns" },
          .getSecret { name := "tok", Namespace := "default" }] ++
        [.mailgunSend
          { domain := "mail.example.org", apiKey := "s3cr3t",
            sender := "me@mail.example.org", subject := "Hi", text := "Hello",
            recipient := "x@y.zz" }]) ∧
    sendEmailMessage (fixtureClient (.error fixtureNotFound) (.error fixtureNotFound)
        fixtureFallbackSecrets) (fixtureVendors "id-2") (fixtureConfig "MailerSend" true)
        "x@y.zz" "Hi" "Hello" =
      (.ok "id-2",
        [.getSecret { name := "tok", Namespace := "ns" },
          .getSecret { name := "tok", Namespace := "default" }] ++
        [.mailerSendSend
          { apiToken := "s3cr3t", fromName := "me@mail.example.org",
            fromEmail := "me@mail.example.org", recipientName := "Recipient",
            recipientEmail := "x@y.zz", subject := "Hi", text := "Hello" }]) :=
  ⟨(sendEmailMessage_error_order _ _ _ _ _ _).1 (not_isValidEmail_of_no_at _ (by decide)),
    ((sendEmailMessage_error_order
      (fixtureClient (.error fixtureNotFound) (.error fixtureNotFound) fixtureNoSecrets)
      (fixtureVendors "id-2") (fixtureConfig "MailerSend" true) "x@y.zz" "Hi" "Hello").2.1
      "unable to fetch secret tok: not found"
      [.getSecret { name := "tok", Namespace := "ns" },
        .getSecret { name := "tok", Namespace := "default" }] (by decide) rfl).1,
    (sendEmailMessage_error_order
      (fixtureClient (.error fixtureNotFound) (.error fixtureNotFound) fixtureFallbackSecrets)
      (fixtureRejecting "401 Unauthenticated") (fixtureConfig "Mailgun" true) "x@y.zz" "Hi"
      "Hello").2.2.1 "s3cr3t"
      [.getSecret { name := "tok", Namespace := "ns" },
        .getSecret { name := "tok", Namespace := "default" }] "401 Unauthenticated"
      [.mailgunSend
        { domain := "mail.example.org", apiKey := "s3cr3t",
          sender := "me@mail.example.org", subject := "Hi", text := "Hello",
          recipient := "x@y.zz" }] (by decide) rfl rfl,
    (sendEmailMessage_error_order
      (fixtureClient (.error fixtureNotFound) (.error fixtureNotFound) fixtureFallbackSecrets)
      (fixtureVendors "id-2") (fixtureConfig "MailerSend" true) "x@y.zz" "Hi" "Hello").2.2.2
      "s3cr3t"
      [.getSecret { name := "tok", Namespace := "ns" },
        .getSecret { name := "tok", Namespace := "default" }] "id-2"
      [.mailerSendSend
        { apiToken := "s3cr3t", fromName := "me@mail.example.org",
          fromEmail := "me@mail.example.org", recipientName := "Recipient",
          recipientEmail := "x@y.zz", subject := "Hi", text := "Hello" }] (by decide) rfl rfl⟩

/-- C4: for an Email that is fetched, not "Sent" and not marked for deletion,
whose SenderConfig is fetched with valid=true, a failure of `sendEmailMessage`
with text `e` makes `EmailReconciler.Reconcile` return `Result{}` and a nil
error with the object carrying deliveryState "Failed", error
"failed to send email: " followed by `e` (so `e` is a substring of it) and the
message id it had; the status write carrying that object is issued unless the
object already had exactly that state and error. -/
theorem reconcile_send_failure (c : Client) (v : Vendors) (req : ObjectKey) (email : Email)
    (sc : EmailSenderConfig) (e : String)
    (hget : c.getEmail req = .ok email) (hns : email.status.deliveryStatus ≠ "Sent")
    (hdel : timeIsZero email.deletionTimestamp = true)
    (hsc : c.getSenderConfig
      { name := email.spec.senderConfigRef, Namespace := req.Namespace } = .ok sc)
    (hvalid : sc.status.valid = true)
    (hsend : (sendEmailMessage c v sc email.spec.recipientEmail email.spec.subject
      email.spec.body).1 = .error e) :
    EmailReconciler.Reconcile c v req =
        { result := {}, err := none,
          obj := some
            { email with status := failedStatus email.status ("failed to send email: " ++ e) },
          trace := [.getEmail req, .getSenderConfig
              { name := email.spec.senderConfigRef, Namespace := req.Namespace }] ++
            (sendEmailMessage c v sc email.spec.recipientEmail email.spec.subject
              email.spec.body).2 ++
            if email.status.deliveryStatus = "Failed" ∧
                email.status.error = "failed to send email: " ++ e then []
            else
              [.statusUpdateEmail
                { email with
                  status := failedStatus email.status ("failed to send email: " ++ e) }] } ∧
      ∃ pre post : String,
        (failedStatus email.status ("failed to send email: " ++ e)).error = pre ++ e ++ post := by
  refine ⟨?_, "failed to send email: ", "", by simp [failedStatus]⟩
  rw [reconcile_of_config c v req email sc hget hns hdel hsc, if_neg (by simp [hvalid])]
  rcases hres : sendEmailMessage c v sc email.spec.recipientEmail email.spec.subject
      email.spec.body with ⟨r, t⟩
  rw [hres] at hsend
  simp only at hsend
  subst hsend
  simp only [updateEmailStatus_fst, updateEmailStatus_snd]
  rfl

/-- Witness of C4: the recipient "invalid-email-format". -/
theorem reconcile_send_failure_witness :
    EmailReconciler.Reconcile
        (fixtureClient (.ok (fixtureEmail "invalid-email-format" ⟨"", "", ""⟩ none))
          (.ok (fixtureConfig "MailerSend" true)) fixtureFallbackSecrets)
        (fixtureVendors "id-2") fixtureRequest =
      { result := {}, err := none,
        obj := some (fixtureEmail "invalid-email-format"
          ⟨"Failed", "failed to send email: email must be a valid email address", ""⟩ none),
        trace := [.getEmail fixtureRequest,
          .getSenderConfig { name := "cfg", Namespace := "ns" },
          .statusUpdateEmail (fixtureEmail "invalid-email-format"
            ⟨"Failed", "failed to send email: email must be a valid email address", ""⟩
            none)] } := by
  have hbad : isValidEmail "invalid-email-format" = false :=
    not_isValidEmail_of_no_at _ (by decide)
  have hs := sendEmailMessage_of_invalid
    (fixtureClient (.ok (fixtureEmail "invalid-email-format" ⟨"", "", ""⟩ none))
      (.ok (fixtureConfig "MailerSend" true)) fixtureFallbackSecrets)
    (fixtureVendors "id-2") (fixtureConfig "MailerSend" true) "invalid-email-format" "Hi" "Hello"
    hbad
  have h := (reconcile_send_failure
    (fixtureClient (.ok (fixtureEmail "invalid-email-format" ⟨"", "", ""⟩ none))
      (.ok (fixtureConfig "MailerSend" true)) fixtureFallbackSecrets)
    (fixtureVendors "id-2") fixtureRequest
    (fixtureEmail "invalid-email-format" ⟨"", "", ""⟩ none) (fixtureConfig "MailerSend" true)
    "email must be a valid email address" rfl (by decide) rfl rfl rfl
    (congrArg Prod.fst hs)).1
  rw [h]
  simp only [fixtureEmail] at hs ⊢
  rw [hs]
  rfl

/-- C5: `getApiTokenFromSecret` follows the two-namespace order.  A successful
lookup of the record in the given namespace makes that record the hit and no
second lookup is made.  When that lookup fails (with not-found, or with any
other error) the record of namespace "default" is the hit if its lookup
succeeds.  When both lookups fail the result is the error
"unable to fetch secret <name>: <cause>", the cause being the error text of the
"default" lookup.  The result for a hit is decided by the hit record alone: the
error "secret <name> does not contain key <key>" when the key is absent from
it, and otherwise the value stored under the key. -/
theorem getApiTokenFromSecret_resolution (c : Client) (ns secretName secretKey : String) :
    (∀ hit, c.getSecret { name := secretName, Namespace := ns } = .ok hit →
      getApiTokenFromSecret c ns secretName secretKey =
        (tokenOf secretName secretKey hit,
          [.getSecret { name := secretName, Namespace := ns }])) ∧
    (∀ e hit, c.getSecret { name := secretName, Namespace := ns } = .error e →
      c.getSecret { name := secretName, Namespace := "default" } = .ok hit →
      getApiTokenFromSecret c ns secretName secretKey =
        (tokenOf secretName secretKey hit,
          [.getSecret { name := secretName, Namespace := ns },
            .getSecret { name := secretName, Namespace := "default" }])) ∧
    (∀ e cause, c.getSecret { name := secretName, Namespace := ns } = .error e →
      c.getSecret { name := secretName, Namespace := "default" } = .error cause →
      getApiTokenFromSecret c ns secretName secretKey =
        (.error ("unable to fetch secret " ++ secretName ++ ": " ++ cause.text),
          [.getSecret { name := secretName, Namespace := ns },
            .getSecret { name := secretName, Namespace := "default" }])) ∧
    (∀ hit : Secret, hit.data.lookup secretKey = none →
      tokenOf secretName secretKey hit =
        .error ("secret " ++ secretName ++ " does not contain key " ++ secretKey)) ∧
    (∀ (hit : Secret) (value : String), hit.data.lookup secretKey = some value →
      tokenOf secretName secretKey hit = .ok value) := by
  refine ⟨?_, ?_, ?_, ?_, ?_⟩
  · intro hit h
    simp only [getApiTokenFromSecret, h, tokenOf]
  · intro e hit h₁ h₂
    simp only [getApiTokenFromSecret, h₁, h₂, tokenOf]
  · intro e cause h₁ h₂
    simp only [getApiTokenFromSecret, h₁, h₂]
  · intro hit h
    simp only [tokenOf, h]
  · intro hit value h
    simp only [tokenOf, h]

/-- Witness of C5: a credential held in the "default" namespace only resolves;
with no record in either namespace the fetch error is returned; a hit record
without the key is a failure. -/
theorem getApiTokenFromSecret_resolution_witness :
    getApiTokenFromSecret (fixtureClient (.error fixtureNotFound) (.error fixtureNotFound)
        fixtureFallbackSecrets) "ns" "tok" "apiToken" =
      (.ok "s3cr3t", [.getSecret { name := "tok", Namespace := "ns" },
        .getSecret { name := "tok", Namespace := "default" }]) ∧
    getApiTokenFromSecret (fixtureClient (.error fixtureNotFound) (.error fixtureNotFound)
        fixtureNoSecrets) "ns" "tok" "apiToken" =
      (.error ("unable to fetch secret " ++ "tok" ++ ": " ++ "not found"),
        [.getSecret { name := "tok", Namespace := "ns" },
          .getSecret { name := "tok", Namespace := "default" }]) ∧
    getApiTokenFromSecret (fixtureClient (.error fixtureNotFound) (.error fixtureNotFound)
        fixtureFallbackSecrets) "default" "tok" "password" =
      (.error ("secret " ++ "tok" ++ " does not contain key " ++ "password"),
        [.getSecret { name := "tok", Namespace := "default" }]) :=
  ⟨((getApiTokenFromSecret_resolution _ "ns" "tok" "apiToken").2.1 fixtureNotFound
      { data := [("apiToken", "s3cr3t")] } rfl rfl).trans
      (congrArg (fun r => (r, _))
        ((getApiTokenFromSecret_resolution
          (fixtureClient (.error fixtureNotFound) (.error fixtureNotFound) fixtureFallbackSecrets)
          "ns" "tok" "apiToken").2.2.2.2 _ _ rfl)),
    (getApiTokenFromSecret_resolution _ "ns" "tok" "apiToken").2.2.1 fixtureNotFound
      fixtureNotFound rfl rfl,
    ((getApiTokenFromSecret_resolution _ "default" "tok" "password").1
      { data := [("apiToken", "s3cr3t")] } rfl).trans
      (congrArg (fun r => (r, _))
        ((getApiTokenFromSecret_resolution
          (fixtureClient (.error fixtureNotFound) (.error fixtureNotFound) fixtureFallbackSecrets)
          "default" "tok" "password").2.2.2.1 _ rfl))⟩

/-- C6: for an Email that is fetched, not "Sent" and not marked for deletion,
whose SenderConfig is fetched with valid=false, `EmailReconciler.Reconcile`
makes no credential lookup and no provider call (the calls are the two fetches
and at most the status write), leaves the object with deliveryState "Failed" and
error "failed to send email: the emailsenderconfig is not valid", and returns
`Result{}` with a nil error, whatever recipient, subject and body are.  The
status write is issued unless the object already had that state and error. -/
theorem reconcile_invalid_config (c : Client) (v : Vendors) (req : ObjectKey) (email : Email)
    (sc : EmailSenderConfig)
    (hget : c.getEmail req = .ok email) (hns : email.status.deliveryStatus ≠ "Sent")
    (hdel : timeIsZero email.deletionTimestamp = true)
    (hsc : c.getSenderConfig
      { name := email.spec.senderConfigRef, Namespace := req.Namespace } = .ok sc)
    (hvalid : sc.status.valid = false) :
    EmailReconciler.Reconcile c v req =
      { result := {}, err := none,
        obj := some
          { email with
            status := failedStatus email.status
              "failed to send email: the emailsenderconfig is not valid" },
        trace := [.getEmail req, .getSenderConfig
            { name := email.spec.senderConfigRef, Namespace := req.Namespace }] ++
          if email.status.deliveryStatus = "Failed" ∧
              email.status.error = "failed to send email: the emailsenderconfig is not valid"
          then []
          else
            [.statusUpdateEmail
              { email with
                status := failedStatus email.status
                  "failed to send email: the emailsenderconfig is not valid" }] } := by
  rw [reconcile_of_config c v req email sc hget hns hdel hsc, if_pos hvalid,
    updateEmailStatus_fst, updateEmailStatus_snd]
  rfl

/-- Witness of C6: a fresh Email whose SenderConfig is not valid. -/
theorem reconcile_invalid_config_witness :
    EmailReconciler.Reconcile
        (fixtureClient (.ok (fixtureEmail "x@y.zz" ⟨"", "", ""⟩ none))
          (.ok (fixtureConfig "Mailgun" false)) fixtureFallbackSecrets)
        (fixtureVendors "id-2") fixtureRequest =
      { result := {}, err := none,
        obj := some (fixtureEmail "x@y.zz"
          ⟨"Failed", "failed to send email: the emailsenderconfig is not valid", ""⟩ none),
        trace := [.getEmail fixtureRequest,
          .getSenderConfig { name := "cfg", Namespace := "ns" },
          .statusUpdateEmail (fixtureEmail "x@y.zz"
            ⟨"Failed", "failed to send email: the emailsenderconfig is not valid", ""⟩
            none)] } :=
  reconcile_invalid_config
    (fixtureClient (.ok (fixtureEmail "x@y.zz" ⟨"", "", ""⟩ none))
      (.ok (fixtureConfig "Mailgun" false)) fixtureFallbackSecrets)
    (fixtureVendors "id-2") fixtureRequest (fixtureEmail "x@y.zz" ⟨"", "", ""⟩ none)
    (fixtureConfig "Mailgun" false) rfl (by decide) rfl rfl rfl

/-- C7: for an Email that is fetched, not "Sent" and not marked for deletion,
`EmailReconciler.Reconcile` fetches a SenderConfig exactly once, under the name
`spec.senderConfigRef` in the namespace of the request; and when that fetch
fails, for whatever reason, with text `cause`, it makes no credential lookup
and no provider call, leaves the object with deliveryState "Failed" and error
"unable to fetch EmailSenderConfig: " followed by `cause`, and returns
`Result{}` with a nil error.  The status write is issued unless the object
already had that state and error. -/
theorem reconcile_config_fetch (c : Client) (v : Vendors) (req : ObjectKey) (email : Email)
    (hget : c.getEmail req = .ok email) (hns : email.status.deliveryStatus ≠ "Sent")
    (hdel : timeIsZero email.deletionTimestamp = true) :
    (EmailReconciler.Reconcile c v req).trace.filter Effect.isSenderConfigFetch =
        [.getSenderConfig { name := email.spec.senderConfigRef, Namespace := req.Namespace }] ∧
      ∀ err : ApiError,
        c.getSenderConfig
          { name := email.spec.senderConfigRef, Namespace := req.Namespace } = .error err →
        EmailReconciler.Reconcile c v req =
          { result := {}, err := none,
            obj := some
              { email with
                status := failedStatus email.status
                  ("unable to fetch EmailSenderConfig: " ++ err.text) },
            trace := [.getEmail req, .getSenderConfig
                { name := email.spec.senderConfigRef, Namespace := req.Namespace }] ++
              if email.status.deliveryStatus = "Failed" ∧
                  email.status.error = "unable to fetch EmailSenderConfig: " ++ err.text
              then []
              else
                [.statusUpdateEmail
                  { email with
                    status := failedStatus email.status
                      ("unable to fetch EmailSenderConfig: " ++ err.text) }] } := by
  constructor
  · rcases hsc : c.getSenderConfig
        { name := email.spec.senderConfigRef, Namespace := req.Namespace } with err | sc
    · rw [reconcile_of_config_error c v req email err hget hns hdel hsc]
      simp [List.filter_cons, Effect.isSenderConfigFetch,
        updateEmailStatus_trace_no_config_fetch]
    · rw [reconcile_of_config c v req email sc hget hns hdel hsc]
      have hsend := sendEmailMessage_trace_no_config_fetch c v sc email.spec.recipientEmail
        email.spec.subject email.spec.body
      split
      · simp [List.filter_cons, Effect.isSenderConfigFetch,
          updateEmailStatus_trace_no_config_fetch]
      · split
        · rename_i e t heq
          rw [heq] at hsend
          simp only [List.filter_append, hsend, updateEmailStatus_trace_no_config_fetch]
          simp [List.filter_cons, Effect.isSenderConfigFetch]
        · rename_i id t heq
          rw [heq] at hsend
          simp only [List.filter_append, hsend, updateEmailStatus_trace_no_config_fetch]
          simp [List.filter_cons, Effect.isSenderConfigFetch]
  · intro err hsc
    rw [reconcile_of_config_error c v req email err hget hns hdel hsc,
      updateEmailStatus_fst, updateEmailStatus_snd]
    rfl

/-- Witness of C7: the SenderConfig is missing from the store. -/
theorem reconcile_config_fetch_witness :
    (EmailReconciler.Reconcile
        (fixtureClient (.ok (fixtureEmail "x@y.zz" ⟨"", "", ""⟩ none))
          (.error fixtureNotFound) fixtureFallbackSecrets)
        (fixtureVendors "id-2") fixtureRequest).trace.filter Effect.isSenderConfigFetch =
      [.getSenderConfig { name := "cfg", Namespace := "ns" }] ∧
    EmailReconciler.Reconcile
        (fixtureClient (.ok (fixtureEmail "x@y.zz" ⟨"", "", ""⟩ none))
          (.error fixtureNotFound) fixtureFallbackSecrets)
        (fixtureVendors "id-2") fixtureRequest =
      { result := {}, err := none,
        obj := some (fixtureEmail "x@y.zz"
          ⟨"Failed", "unable to fetch EmailSenderConfig: not found", ""⟩ none),
        trace := [.getEmail fixtureRequest,
          .getSenderConfig { name := "cfg", Namespace := "ns" },
          .statusUpdateEmail (fixtureEmail "x@y.zz"
            ⟨"Failed", "unable to fetch EmailSenderConfig: not found", ""⟩ none)] } :=
  ⟨(reconcile_config_fetch
      (fixtureClient (.ok (fixtureEmail "x@y.zz" ⟨"", "", ""⟩ none))
        (.error fixtureNotFound) fixtureFallbackSecrets)
      (fixtureVendors "id-2") fixtureRequest (fixtureEmail "x@y.zz" ⟨"", "", ""⟩ none)
      rfl (by decide) rfl).1,
    (reconcile_config_fetch
      (fixtureClient (.ok (fixtureEmail "x@y.zz" ⟨"", "", ""⟩ none))
        (.error fixtureNotFound) fixtureFallbackSecrets)
      (fixtureVendors "id-2") fixtureRequest (fixtureEmail "x@y.zz" ⟨"", "", ""⟩ none)
      rfl (by decide) rfl).2 fixtureNotFound rfl⟩

/-- C8: for an Email that is fetched, not "Sent" and not marked for deletion,
whose SenderConfig is fetched with valid=true, a success of `sendEmailMessage`
with id `m` makes `EmailReconciler.Reconcile` issue, as its last call, a status
write carrying deliveryState "Sent", message id `m` and an empty error; the
write is made whatever the previous state, error and message id were. -/
theorem reconcile_send_success (c : Client) (v : Vendors) (req : ObjectKey) (email : Email)
    (sc : EmailSenderConfig) (m : String)
    (hget : c.getEmail req = .ok email) (hns : email.status.deliveryStatus ≠ "Sent")
    (hdel : timeIsZero email.deletionTimestamp = true)
    (hsc : c.getSenderConfig
      { name := email.spec.senderConfigRef, Namespace := req.Namespace } = .ok sc)
    (hvalid : sc.status.valid = true)
    (hsend : (sendEmailMessage c v sc email.spec.recipientEmail email.spec.subject
      email.spec.body).1 = .ok m) :
    EmailReconciler.Reconcile c v req =
      { result := {}, err := none,
        obj := some
          { email with status := { deliveryStatus := "Sent", error := "", messageId := m } },
        trace := [.getEmail req, .getSenderConfig
            { name := email.spec.senderConfigRef, Namespace := req.Namespace }] ++
          (sendEmailMessage c v sc email.spec.recipientEmail email.spec.subject
            email.spec.body).2 ++
          [.statusUpdateEmail
            { email with
              status := { deliveryStatus := "Sent", error := "", messageId := m } }] } := by
  rw [reconcile_of_config c v req email sc hget hns hdel hsc, if_neg (by simp [hvalid])]
  rcases hres : sendEmailMessage c v sc email.spec.recipientEmail email.spec.subject
      email.spec.body with ⟨r, t⟩
  rw [hres] at hsend
  simp only at hsend
  subst hsend
  simp only [updateEmailStatus_fst, updateEmailStatus_snd]
  rw [if_neg (fun h => hns h.1)]

/-- Witness of C8: an Email that failed before, with a non-empty error. -/
theorem reconcile_send_success_witness :
    EmailReconciler.Reconcile
        (fixtureClient (.ok (fixtureEmail "x@y.zz" ⟨"Failed", "old error", ""⟩ none))
          (.ok (fixtureConfig "MailerSend" true)) fixtureFallbackSecrets)
        (fixtureVendors "id-2") fixtureRequest =
      { result := {}, err := none,
        obj := some (fixtureEmail "x@y.zz" ⟨"Sent", "", "id-2"⟩ none),
        trace := [.getEmail fixtureRequest,
          .getSenderConfig { name := "cfg", Namespace := "ns" },
          .getSecret { name := "tok", Namespace := "ns" },
          .getSecret { name := "tok", Namespace := "default" },
          .mailerSendSend
            { apiToken := "s3cr3t", fromName := "me@mail.example.org",
              fromEmail := "me@mail.example.org", recipientName := "Recipient",
              recipientEmail := "x@y.zz", subject := "Hi", text := "Hello" },
          .statusUpdateEmail (fixtureEmail "x@y.zz" ⟨"Sent", "", "id-2"⟩ none)] } := by
  have hok : isValidEmail "x@y.zz" = true := by decide
  have hs : sendEmailMessage
      (fixtureClient (.ok (fixtureEmail "x@y.zz" ⟨"Failed", "old error", ""⟩ none))
        (.ok (fixtureConfig "MailerSend" true)) fixtureFallbackSecrets)
      (fixtureVendors "id-2") (fixtureConfig "MailerSend" true) "x@y.zz" "Hi" "Hello" =
      (.ok "id-2",
        [.getSecret { name := "tok", Namespace := "ns" },
          .getSecret { name := "tok", Namespace := "default" },
          .mailerSendSend
            { apiToken := "s3cr3t", fromName := "me@mail.example.org",
              fromEmail := "me@mail.example.org", recipientName := "Recipient",
              recipientEmail := "x@y.zz", subject := "Hi", text := "Hello" }]) := by
    simp only [sendEmailMessage, hok]
    rfl
  have h := reconcile_send_success
    (fixtureClient (.ok (fixtureEmail "x@y.zz" ⟨"Failed", "old error", ""⟩ none))
      (.ok (fixtureConfig "MailerSend" true)) fixtureFallbackSecrets)
    (fixtureVendors "id-2") fixtureRequest
    (fixtureEmail "x@y.zz" ⟨"Failed", "old error", ""⟩ none) (fixtureConfig "MailerSend" true)
    "id-2" rfl (by decide) rfl rfl rfl (congrArg Prod.fst hs)
  rw [h]
  simp only [fixtureEmail] at hs ⊢
  rw [hs]
  rfl

/-- C9: each reconciler returns a non-nil error exactly when its first fetch
fails with an error that is not not-found, and then returns that error; the
returned `ctrl.Result` is always `Result{}`.  This holds for every store and
every vendor behaviour, so also when the SenderConfig fetch, the credential
lookup, the provider call or the status write fails. -/
theorem reconcile_error_iff_first_fetch (c : Client) (v : Vendors) (req : ObjectKey) :
    ((EmailReconciler.Reconcile c v req).err ≠ none ↔
        ∃ e, c.getEmail req = .error e ∧ e.notFound = false) ∧
      (∀ e, c.getEmail req = .error e → e.notFound = false →
        (EmailReconciler.Reconcile c v req).err = some e) ∧
      (EmailReconciler.Reconcile c v req).result = {} ∧
      ((EmailSenderConfigReconciler.Reconcile c v req).err ≠ none ↔
        ∃ e, c.getSenderConfig req = .error e ∧ e.notFound = false) ∧
      (∀ e, c.getSenderConfig req = .error e → e.notFound = false →
        (EmailSenderConfigReconciler.Reconcile c v req).err = some e) ∧
      (EmailSenderConfigReconciler.Reconcile c v req).result = {} := by
  have hE : (EmailReconciler.Reconcile c v req).result = {} ∧
      (EmailReconciler.Reconcile c v req).err =
        match c.getEmail req with
        | .error e => ignoreNotFound e
        | .ok _ => none := by
    rcases hget : c.getEmail req with e | email
    · simp [EmailReconciler.Reconcile, hget]
    · by_cases hs : email.status.deliveryStatus = "Sent"
      · simp [EmailReconciler.Reconcile, hget, hs]
      · cases hdel : timeIsZero email.deletionTimestamp
        · simp [EmailReconciler.Reconcile, hget, hs, hdel]
        · rcases hsc : c.getSenderConfig
              { name := email.spec.senderConfigRef, Namespace := req.Namespace } with err | sc
          · rw [reconcile_of_config_error c v req email err hget hs hdel hsc]
            exact ⟨rfl, rfl⟩
          · rw [reconcile_of_config c v req email sc hget hs hdel hsc]
            split
            · exact ⟨rfl, rfl⟩
            · split <;> exact ⟨rfl, rfl⟩
  have hS : (EmailSenderConfigReconciler.Reconcile c v req).result = {} ∧
      (EmailSenderConfigReconciler.Reconcile c v req).err =
        match c.getSenderConfig req with
        | .error e => ignoreNotFound e
        | .ok _ => none := by
    rcases hget : c.getSenderConfig req with e | sc
    · simp [EmailSenderConfigReconciler.Reconcile, hget]
    · cases hvalid : sc.status.valid
      · simp only [EmailSenderConfigReconciler.Reconcile, hget, hvalid]
        generalize sendEmailMessage c v sc _ _ _ = res
        rcases res with ⟨_ | _, t⟩ <;> exact ⟨rfl, rfl⟩
      · simp [EmailSenderConfigReconciler.Reconcile, hget, hvalid]
  refine ⟨?_, ?_, hE.1, ?_, ?_, hS.1⟩
  · rw [hE.2]
    cases c.getEmail req with
    | error e => cases hnf : e.notFound <;> simp [ignoreNotFound, hnf]
    | ok _ => simp
  · intro e he hnf
    rw [hE.2, he]
    simp [ignoreNotFound, hnf]
  · rw [hS.2]
    cases c.getSenderConfig req with
    | error e => cases hnf : e.notFound <;> simp [ignoreNotFound, hnf]
    | ok _ => simp
  · intro e he hnf
    rw [hS.2, he]
    simp [ignoreNotFound, hnf]

/-- Witness of C9: a first fetch that fails with an error other than not-found
is returned by either reconciler. -/
theorem reconcile_error_iff_first_fetch_witness :
    (EmailReconciler.Reconcile
        (fixtureClient (.error fixtureForbidden) (.error fixtureForbidden) fixtureNoSecrets)
        (fixtureVendors "id-2") fixtureRequest).err = some fixtureForbidden ∧
      (EmailSenderConfigReconciler.Reconcile
        (fixtureClient (.error fixtureForbidden) (.error fixtureForbidden) fixtureNoSecrets)
        (fixtureVendors "id-2") fixtureRequest).err = some fixtureForbidden :=
  ⟨(reconcile_error_iff_first_fetch _ _ _).2.1 fixtureForbidden rfl rfl,
    (reconcile_error_iff_first_fetch _ _ _).2.2.2.2.1 fixtureForbidden rfl rfl⟩

/-- C10: when the first fetch returns an EmailSenderConfig whose valid flag is
true, `EmailSenderConfigReconciler.Reconcile` makes no call besides that fetch
(no credential lookup, no provider call, no status write), hands back the
object as fetched, valid still true, and returns `Result{}` with a nil error,
whatever the spec is. -/
theorem senderConfig_valid_is_noop (c : Client) (v : Vendors) (req : ObjectKey)
    (sc : EmailSenderConfig)
    (hget : c.getSenderConfig req = .ok sc) (hvalid : sc.status.valid = true) :
    EmailSenderConfigReconciler.Reconcile c v req =
      { result := {}, err := none, obj := some sc, trace := [.getSenderConfig req] } := by
  unfold EmailSenderConfigReconciler.Reconcile
  rw [hget]
  simp [hvalid]

/-- Witness of C10: a valid SenderConfig with an unknown provider name, in a
store without its credential. -/
theorem senderConfig_valid_is_noop_witness :
    EmailSenderConfigReconciler.Reconcile
        (fixtureClient (.error fixtureNotFound) (.ok (fixtureConfig "Nobody" true))
          fixtureNoSecrets)
        (fixtureRejecting "401 Unauthenticated") { name := "cfg", Namespace := "ns" } =
      { result := {}, err := none, obj := some (fixtureConfig "Nobody" true),
        trace := [.getSenderConfig { name := "cfg", Namespace := "ns" }] } :=
  senderConfig_valid_is_noop _ _ _ _ rfl rfl

/-! ## Lemmas on the validation of a sender configuration -/

theorem isValidEmail_testRecipient : isValidEmail "parham.dskn@gmail.com" = true := by
  decide

theorem sendEmailMessage_ok_iff (c : Client) (v : Vendors) (sc : EmailSenderConfig)
    (recipient subject body : String) (hvalid : isValidEmail recipient = true) :
    (∃ id, (sendEmailMessage c v sc recipient subject body).1 = .ok id) ↔
      ∃ token t id t₁,
        getApiTokenFromSecret c sc.Namespace sc.spec.apiTokenSecretRef "apiToken" =
          (.ok token, t) ∧
        (if sc.spec.provider = "MailerSend" then
            sendEmailMessageMailerSend v sc recipient subject body token
          else sendEmailMessageMailgun v sc recipient subject body token) = (.ok id, t₁) := by
  rcases hcred : getApiTokenFromSecret c sc.Namespace sc.spec.apiTokenSecretRef "apiToken"
    with ⟨r | token, t⟩
  · simp [sendEmailMessage, hvalid, hcred]
  · by_cases hp : sc.spec.provider = "MailerSend"
    · rcases hvar : sendEmailMessageMailerSend v sc recipient subject body token
        with ⟨e | id, t₁⟩ <;> simp [sendEmailMessage, hvalid, hcred, hp, hvar]
    · rcases hvar : sendEmailMessageMailgun v sc recipient subject body token
        with ⟨e | id, t₁⟩ <;> simp [sendEmailMessage, hvalid, hcred, hp, hvar]

theorem updateEmailSenderConfigStatus_fst (c : Client) (config : EmailSenderConfig)
    (status : Bool) :
    (updateEmailSenderConfigStatus c config status).1 =
      { config with status := { valid := status } } := by
  rw [updateEmailSenderConfigStatus_eq]
  split
  · rename_i h
    subst h
    rfl
  · rfl

theorem updateEmailSenderConfigStatus_snd (c : Client) (config : EmailSenderConfig)
    (status : Bool) :
    (updateEmailSenderConfigStatus c config status).2 =
      if config.status.valid = status then []
      else [.statusUpdateSenderConfig { config with status := { valid := status } }] := by
  rw [updateEmailSenderConfigStatus_eq]
  split <;> rfl

/-- The run of `EmailSenderConfigReconciler.Reconcile` once the object is
fetched and is not valid yet. -/
theorem senderConfig_reconcile_of_not_valid (c : Client) (v : Vendors) (req : ObjectKey)
    (sc : EmailSenderConfig)
    (hget : c.getSenderConfig req = .ok sc) (hvalid : sc.status.valid = false) :
    EmailSenderConfigReconciler.Reconcile c v req =
      match sendEmailMessage c v sc "parham.dskn@gmail.com" "Test Email"
          "This is a test email to verify the EmailSenderConfig." with
      | (.error _, t) =>
        { result := {}, err := none, obj := some sc, trace := [.getSenderConfig req] ++ t }
      | (.ok _, t) =>
        { result := {}, err := none,
          obj := some { sc with status := { valid := true } },
          trace := [.getSenderConfig req] ++ t ++
            [.statusUpdateSenderConfig { sc with status := { valid := true } }] } := by
  simp only [EmailSenderConfigReconciler.Reconcile, hget, hvalid,
    updateEmailSenderConfigStatus_fst, updateEmailSenderConfigStatus_snd]
  generalize sendEmailMessage c v sc _ _ _ = res
  rcases res with ⟨_ | _, t⟩
  · have hsc : ({ sc with status := { valid := false } } : EmailSenderConfig) = sc := by
      rw [← hvalid]
    simp [hsc]
  · simp

/-! ## Claims on validation, the status writers and the variants -/

/-- C11: for an EmailSenderConfig fetched with valid=false, the object that
`EmailSenderConfigReconciler.Reconcile` leaves is the fetched one with only the
valid flag decided anew: it is true exactly when the credential resolves and
the variant selected by the provider name accepts the fixed test message
(recipient "parham.dskn@gmail.com", subject "Test Email", the fixed body), and
false otherwise; when it is true the status write carrying it is issued.  The
fixed recipient passes `isValidEmail`, so recipient validation never decides
the outcome. -/
theorem senderConfig_validation_outcome (c : Client) (v : Vendors) (req : ObjectKey)
    (sc : EmailSenderConfig)
    (hget : c.getSenderConfig req = .ok sc) (hvalid : sc.status.valid = false) :
    isValidEmail "parham.dskn@gmail.com" = true ∧
      ∃ obj, (EmailSenderConfigReconciler.Reconcile c v req).obj = some obj ∧
        obj.name = sc.name ∧ obj.Namespace = sc.Namespace ∧ obj.spec = sc.spec ∧
        (obj.status.valid = true →
          .statusUpdateSenderConfig obj ∈ (EmailSenderConfigReconciler.Reconcile c v req).trace) ∧
        (obj.status.valid = true ↔
          ∃ token t id t₁,
            getApiTokenFromSecret c sc.Namespace sc.spec.apiTokenSecretRef "apiToken" =
              (.ok token, t) ∧
            (if sc.spec.provider = "MailerSend" then
                sendEmailMessageMailerSend v sc "parham.dskn@gmail.com" "Test Email"
                  "This is a test email to verify the EmailSenderConfig." token
              else
                sendEmailMessageMailgun v sc "parham.dskn@gmail.com" "Test Email"
                  "This is a test email to verify the EmailSenderConfig." token) =
              (.ok id, t₁)) := by
  refine ⟨isValidEmail_testRecipient, ?_⟩
  have hiff := sendEmailMessage_ok_iff c v sc "parham.dskn@gmail.com" "Test Email"
    "This is a test email to verify the EmailSenderConfig." isValidEmail_testRecipient
  rw [senderConfig_reconcile_of_not_valid c v req sc hget hvalid]
  rcases hres : sendEmailMessage c v sc "parham.dskn@gmail.com" "Test Email"
      "This is a test email to verify the EmailSenderConfig." with ⟨e | id, t⟩
  · refine ⟨sc, rfl, rfl, rfl, rfl, ?_, ?_⟩
    · intro h
      rw [hvalid] at h
      exact absurd h (by decide)
    · rw [← hiff, hres, hvalid]
      simp
  · refine ⟨{ sc with status := { valid := true } }, rfl, rfl, rfl, rfl, ?_, ?_⟩
    · intro _
      simp
    · rw [← hiff, hres]
      simp

/-- Witness of C11: a configuration whose credential sits in the "default"
namespace and whose vendor accepts the test message becomes valid. -/
theorem senderConfig_validation_outcome_witness :
    (EmailSenderConfigReconciler.Reconcile
        (fixtureClient (.error fixtureNotFound) (.ok (fixtureConfig "MailerSend" false))
          fixtureFallbackSecrets)
        (fixtureVendors "id-2") { name := "cfg", Namespace := "ns" }).obj =
      some (fixtureConfig "MailerSend" true) := by
  obtain ⟨-, obj, hobj, hname, hns, hspec, -, hiff⟩ := senderConfig_validation_outcome
    (fixtureClient (.error fixtureNotFound) (.ok (fixtureConfig "MailerSend" false))
      fixtureFallbackSecrets)
    (fixtureVendors "id-2") { name := "cfg", Namespace := "ns" }
    (fixtureConfig "MailerSend" false) rfl rfl
  have hv : obj.status.valid = true := hiff.2 ⟨"s3cr3t", _, "id-2", _, rfl, rfl⟩
  rw [hobj]
  rcases obj with ⟨n, ns, sp, ⟨b⟩⟩
  simp only at hname hns hspec hv
  subst hname hns hspec hv
  rfl

/-- C12: each status writer makes no store write, and leaves the object as it
is, when the update changes no field of the in-memory status, and otherwise
makes exactly one status write, carrying the object with the new values.
Consequently a reconcile of a "Failed" Email that ends "Failed" again with the
same error text, and a reconcile of a not-valid SenderConfig whose test message
fails again, make no status write at all. -/
theorem status_writers_diff_before_write (c : Client) :
    (∀ (email : Email) (status errMsg : String),
      ({ email.status with deliveryStatus := status, error := errMsg } = email.status →
        updateEmailStatus c email status errMsg = (email, [])) ∧
      ({ email.status with deliveryStatus := status, error := errMsg } ≠ email.status →
        updateEmailStatus c email status errMsg =
          ({ email with status := { email.status with deliveryStatus := status, error := errMsg } },
            [.statusUpdateEmail
              { email with
                status := { email.status with deliveryStatus := status, error := errMsg } }]))) ∧
    (∀ (config : EmailSenderConfig) (status : Bool),
      (({ valid := status } : EmailSenderConfigStatus) = config.status →
        updateEmailSenderConfigStatus c config status = (config, [])) ∧
      (({ valid := status } : EmailSenderConfigStatus) ≠ config.status →
        updateEmailSenderConfigStatus c config status =
          ({ config with status := { valid := status } },
            [.statusUpdateSenderConfig { config with status := { valid := status } }]))) ∧
    (∀ (v : Vendors) (req : ObjectKey) (email obj : Email),
      c.getEmail req = .ok email → email.status.deliveryStatus = "Failed" →
      (EmailReconciler.Reconcile c v req).obj = some obj →
      obj.status.deliveryStatus = "Failed" → obj.status.error = email.status.error →
      (EmailReconciler.Reconcile c v req).trace.filter Effect.isStatusWrite = []) ∧
    (∀ (v : Vendors) (req : ObjectKey) (sc : EmailSenderConfig) (e : String),
      c.getSenderConfig req = .ok sc → sc.status.valid = false →
      (sendEmailMessage c v sc "parham.dskn@gmail.com" "Test Email"
        "This is a test email to verify the EmailSenderConfig.").1 = .error e →
      (EmailSenderConfigReconciler.Reconcile c v req).trace.filter Effect.isStatusWrite = []) := by
  refine ⟨?_, ?_, ?_, ?_⟩
  · intro email status errMsg
    rw [updateEmailStatus_eq]
    constructor
    · intro h
      have h₁ : email.status.deliveryStatus = status := by rw [← h]
      have h₂ : email.status.error = errMsg := by rw [← h]
      rw [if_pos ⟨h₁, h₂⟩]
    · intro h
      rw [if_neg]
      rintro ⟨h₁, h₂⟩
      exact h (by rw [← h₁, ← h₂])
  · intro config status
    rw [updateEmailSenderConfigStatus_eq]
    constructor
    · intro h
      have h₁ : config.status.valid = status := by rw [← h]
      rw [if_pos h₁]
    · intro h
      rw [if_neg]
      intro h₁
      exact h (by rw [← h₁])
  · intro v req email obj hget hfailed hobj hst herr
    have hns : email.status.deliveryStatus ≠ "Sent" := by
      rw [hfailed]
      decide
    cases hdel : timeIsZero email.deletionTimestamp
    · simp [EmailReconciler.Reconcile, hget, hns, hdel, Effect.isStatusWrite]
    · rcases hsc : c.getSenderConfig
          { name := email.spec.senderConfigRef, Namespace := req.Namespace } with err | sc
      · rw [reconcile_of_config_error c v req email err hget hns hdel hsc] at hobj ⊢
        simp only [updateEmailStatus_fst, Option.some.injEq] at hobj
        subst hobj
        simp only at herr
        rw [updateEmailStatus_snd, if_pos ⟨hfailed, herr.symm⟩]
        simp [Effect.isStatusWrite]
      · rw [reconcile_of_config c v req email sc hget hns hdel hsc] at hobj ⊢
        have hsend := sendEmailMessage_trace_no_write c v sc email.spec.recipientEmail
          email.spec.subject email.spec.body
        split at hobj
        · rename_i hv
          rw [if_pos hv]
          simp only [updateEmailStatus_fst, Option.some.injEq] at hobj
          subst hobj
          simp only at herr
          rw [updateEmailStatus_snd, if_pos ⟨hfailed, herr.symm⟩]
          simp [Effect.isStatusWrite]
        · rename_i hv
          rw [if_neg hv]
          rcases hres : sendEmailMessage c v sc email.spec.recipientEmail email.spec.subject
              email.spec.body with ⟨e | id, t⟩
          · rw [hres] at hobj hsend
            simp only [updateEmailStatus_fst, Option.some.injEq] at hobj
            subst hobj
            simp only at herr hsend ⊢
            rw [updateEmailStatus_snd, if_pos ⟨hfailed, herr.symm⟩]
            simp [Effect.isStatusWrite, hsend]
          · rw [hres] at hobj
            simp only [updateEmailStatus_fst, Option.some.injEq] at hobj
            subst hobj
            simp only at hst
            exact absurd hst (by decide)
  · intro v req sc e hget hvalid hsend
    rw [senderConfig_reconcile_of_not_valid c v req sc hget hvalid]
    have hnw := sendEmailMessage_trace_no_write c v sc "parham.dskn@gmail.com" "Test Email"
      "This is a test email to verify the EmailSenderConfig."
    rcases hres : sendEmailMessage c v sc "parham.dskn@gmail.com" "Test Email"
        "This is a test email to verify the EmailSenderConfig." with ⟨e₁ | id, t⟩
    · rw [hres] at hnw
      simp only at hnw ⊢
      simp [Effect.isStatusWrite, hnw]
    · rw [hres] at hsend
      simp at hsend

/-- Witness of C12: an Email that failed on a not-valid SenderConfig and meets
it again, and a SenderConfig without credential that is checked again. -/
theorem status_writers_diff_before_write_witness :
    (EmailReconciler.Reconcile
        (fixtureClient
          (.ok (fixtureEmail "x@y.zz"
            ⟨"Failed", "failed to send email: the emailsenderconfig is not valid", ""⟩ none))
          (.ok (fixtureConfig "Mailgun" false)) fixtureNoSecrets)
        (fixtureVendors "id-2") fixtureRequest).trace.filter Effect.isStatusWrite = [] ∧
      (EmailSenderConfigReconciler.Reconcile
        (fixtureClient
          (.ok (fixtureEmail "x@y.zz"
            ⟨"Failed", "failed to send email: the emailsenderconfig is not valid", ""⟩ none))
          (.ok (fixtureConfig "Mailgun" false)) fixtureNoSecrets)
        (fixtureVendors "id-2") { name := "cfg", Namespace := "ns" }).trace.filter
          Effect.isStatusWrite = [] ∧
      updateEmailStatus
        (fixtureClient (.error fixtureNotFound) (.error fixtureNotFound) fixtureNoSecrets)
        (fixtureEmail "x@y.zz" ⟨"", "", ""⟩ none) "Failed" "boom" =
        (fixtureEmail "x@y.zz" ⟨"Failed", "boom", ""⟩ none,
          [.statusUpdateEmail (fixtureEmail "x@y.zz" ⟨"Failed", "boom", ""⟩ none)]) :=
  ⟨(status_writers_diff_before_write _).2.2.1 (fixtureVendors "id-2") fixtureRequest
      (fixtureEmail "x@y.zz"
        ⟨"Failed", "failed to send email: the emailsenderconfig is not valid", ""⟩ none)
      (fixtureEmail "x@y.zz"
        ⟨"Failed", "failed to send email: the emailsenderconfig is not valid", ""⟩ none)
      rfl rfl rfl rfl rfl,
    (status_writers_diff_before_write _).2.2.2 (fixtureVendors "id-2")
      { name := "cfg", Namespace := "ns" } (fixtureConfig "Mailgun" false)
      "failed to retrieve API token: unable to fetch secret tok: not found" rfl rfl
      (by simp only [sendEmailMessage, isValidEmail_testRecipient]; rfl),
    ((status_writers_diff_before_write
      (fixtureClient (.error fixtureNotFound) (.error fixtureNotFound) fixtureNoSecrets)).1
      (fixtureEmail "x@y.zz" ⟨"", "", ""⟩ none) "Failed" "boom").2 (by decide)⟩

/-! ## Lemmas on `stringsSplit` and on the Mailgun variant -/

theorem stringsSplit_ne_nil (sep : Char) (l : List Char) : stringsSplit sep l ≠ [] := by
  cases l with
  | nil => simp [stringsSplit]
  | cons c cs =>
    unfold stringsSplit
    split
    · simp
    · split <;> simp

theorem length_stringsSplit (sep : Char) (l : List Char) :
    (stringsSplit sep l).length = l.count sep + 1 := by
  induction l with
  | nil => simp [stringsSplit]
  | cons c cs ih =>
    unfold stringsSplit
    by_cases h : c = sep
    · subst h
      simp [ih]
    · rw [if_neg h, List.count_cons_of_ne (Ne.symm h)]
      rcases hs : stringsSplit sep cs with _ | ⟨p, ps⟩
      · exact absurd hs (stringsSplit_ne_nil sep cs)
      · rw [hs] at ih
        simpa using ih

theorem stringsSplit_of_not_mem (sep : Char) (l : List Char) (h : sep ∉ l) :
    stringsSplit sep l = [l] := by
  induction l with
  | nil => rfl
  | cons c cs ih =>
    have hc : c ≠ sep := fun hc => h (by simp [hc])
    have hcs : sep ∉ cs := fun hm => h (by simp [hm])
    unfold stringsSplit
    rw [if_neg hc, ih hcs]

theorem stringsSplit_eq_pair (sep : Char) (l a b : List Char)
    (h : stringsSplit sep l = [a, b]) : l = a ++ sep :: b ∧ sep ∉ a ∧ sep ∉ b := by
  induction l generalizing a with
  | nil => simp [stringsSplit] at h
  | cons c cs ih =>
    unfold stringsSplit at h
    by_cases hc : c = sep
    · subst hc
      rw [if_pos rfl] at h
      simp only [List.cons.injEq] at h
      obtain ⟨rfl, hcs⟩ := h
      have hlen := length_stringsSplit c cs
      rw [hcs] at hlen
      have hnot : c ∉ cs := by
        rw [← List.count_eq_zero]
        simpa using hlen.symm
      rw [stringsSplit_of_not_mem c cs hnot] at hcs
      simp only [List.cons.injEq, and_true] at hcs
      subst hcs
      exact ⟨rfl, by simp, hnot⟩
    · rw [if_neg hc] at h
      rcases hs : stringsSplit sep cs with _ | ⟨p, ps⟩
      · exact absurd hs (stringsSplit_ne_nil sep cs)
      · rw [hs] at h
        simp only [List.cons.injEq] at h
        obtain ⟨rfl, rfl⟩ := h
        obtain ⟨h₁, h₂, h₃⟩ := ih p hs
        refine ⟨by rw [h₁]; rfl, ?_, h₃⟩
        intro hm
        rcases List.mem_cons.1 hm with hm | hm
        · exact hc hm.symm
        · exact h₂ hm

theorem sendEmailMessageMailgun_of_pair (v : Vendors) (sc : EmailSenderConfig)
    (recipient subject body token : String) (a b : List Char)
    (h : stringsSplit '@' sc.spec.senderEmail.toList = [a, b]) :
    sendEmailMessageMailgun v sc recipient subject body token =
      match v.mailgunSend
          { domain := String.mk b, apiKey := token, sender := sc.spec.senderEmail,
            subject := subject, text := body, recipient := recipient } with
      | .error err =>
        (.error err,
          [.mailgunSend
            { domain := String.mk b, apiKey := token, sender := sc.spec.senderEmail,
              subject := subject, text := body, recipient := recipient }])
      | .ok (_, id) =>
        (.ok id,
          [.mailgunSend
            { domain := String.mk b, apiKey := token, sender := sc.spec.senderEmail,
              subject := subject, text := body, recipient := recipient }]) := by
  unfold sendEmailMessageMailgun
  rw [h]

theorem sendEmailMessageMailgun_of_count_ne (v : Vendors) (sc : EmailSenderConfig)
    (recipient subject body token : String)
    (h : sc.spec.senderEmail.toList.count '@' ≠ 1) :
    sendEmailMessageMailgun v sc recipient subject body token =
      (.error "invalid sender email format", []) := by
  have hlen := length_stringsSplit '@' sc.spec.senderEmail.toList
  unfold sendEmailMessageMailgun
  split
  · rename_i x domain heq
    rw [heq] at hlen
    simp only [List.length_cons, List.length_nil] at hlen
    omega
  · rfl

theorem stringsSplit_of_count_one (l : List Char) (h : l.count '@' = 1) :
    ∃ a b, stringsSplit '@' l = [a, b] := by
  have hlen := length_stringsSplit '@' l
  rw [h] at hlen
  rcases hs : stringsSplit '@' l with _ | ⟨a, _ | ⟨b, _ | ⟨d, ds⟩⟩⟩
  · rw [hs] at hlen; simp at hlen
  · rw [hs] at hlen; simp at hlen
  · exact ⟨a, b, rfl⟩
  · rw [hs] at hlen; simp at hlen

/-- C13: with a recipient that passes `isValidEmail` and a credential that
resolves, a provider name other than exactly "MailerSend" sends the message
through the Mailgun variant.  That variant fails with
"invalid sender email format" without any vendor call exactly when the sender
address does not contain exactly one "@", which `sendEmailMessage` reports as
"failed to send email: invalid sender email format"; with exactly one "@" the
vendor is called with the text after the "@" as its domain.  For the provider
name "MailerSend" the MailerSend variant is used and its vendor call is made
whatever the sender address is. -/
theorem sendEmailMessage_variant_choice (c : Client) (v : Vendors) (sc : EmailSenderConfig)
    (recipient subject body token : String) (t : List Effect)
    (hvalid : isValidEmail recipient = true)
    (hcred : getApiTokenFromSecret c sc.Namespace sc.spec.apiTokenSecretRef "apiToken" =
      (.ok token, t)) :
    (sc.spec.provider ≠ "MailerSend" →
      (sendEmailMessage c v sc recipient subject body =
        match sendEmailMessageMailgun v sc recipient subject body token with
        | (.error e, t₁) => (.error ("failed to send email: " ++ e), t ++ t₁)
        | (.ok id, t₁) => (.ok id, t ++ t₁)) ∧
      (sendEmailMessageMailgun v sc recipient subject body token =
          (.error "invalid sender email format", []) ↔
        sc.spec.senderEmail.toList.count '@' ≠ 1) ∧
      (sc.spec.senderEmail.toList.count '@' ≠ 1 →
        sendEmailMessage c v sc recipient subject body =
          (.error "failed to send email: invalid sender email format", t)) ∧
      (sc.spec.senderEmail.toList.count '@' = 1 →
        ∃ localPart domain : List Char,
          sc.spec.senderEmail.toList = localPart ++ '@' :: domain ∧
          '@' ∉ localPart ∧ '@' ∉ domain ∧
          (sendEmailMessageMailgun v sc recipient subject body token).2 =
            [.mailgunSend
              { domain := String.mk domain, apiKey := token, sender := sc.spec.senderEmail,
                subject := subject, text := body, recipient := recipient }])) ∧
    (sc.spec.provider = "MailerSend" →
      (sendEmailMessage c v sc recipient subject body =
        match sendEmailMessageMailerSend v sc recipient subject body token with
        | (.error e, t₁) => (.error ("failed to send email: " ++ e), t ++ t₁)
        | (.ok id, t₁) => (.ok id, t ++ t₁)) ∧
      (sendEmailMessageMailerSend v sc recipient subject body token).2 =
        [.mailerSendSend
          { apiToken := token, fromName := sc.spec.senderEmail,
            fromEmail := sc.spec.senderEmail, recipientName := "Recipient",
            recipientEmail := recipient, subject := subject, text := body }]) := by
  have hpair : ∀ a b, stringsSplit '@' sc.spec.senderEmail.toList = [a, b] →
      (sendEmailMessageMailgun v sc recipient subject body token).2 =
        [.mailgunSend
          { domain := String.mk b, apiKey := token, sender := sc.spec.senderEmail,
            subject := subject, text := body, recipient := recipient }] := by
    intro a b hs
    rw [sendEmailMessageMailgun_of_pair v sc recipient subject body token a b hs]
    split <;> rfl
  constructor
  · intro hp
    have hdispatch : sendEmailMessage c v sc recipient subject body =
        match sendEmailMessageMailgun v sc recipient subject body token with
        | (.error e, t₁) => (.error ("failed to send email: " ++ e), t ++ t₁)
        | (.ok id, t₁) => (.ok id, t ++ t₁) := by
      simp only [sendEmailMessage, hvalid, hcred, hp, Bool.not_true, Bool.false_eq_true,
        if_false]
    refine ⟨hdispatch, ?_, ?_, ?_⟩
    · constructor
      · intro hfail hone
        obtain ⟨a, b, hs⟩ := stringsSplit_of_count_one _ hone
        have := hpair a b hs
        rw [hfail] at this
        simp at this
      · exact sendEmailMessageMailgun_of_count_ne v sc recipient subject body token
    · intro hne
      rw [hdispatch, sendEmailMessageMailgun_of_count_ne v sc recipient subject body token hne]
      simp only [List.append_nil]
      have hmsg : "failed to send email: " ++ "invalid sender email format" =
          "failed to send email: invalid sender email format" := by decide
      rw [hmsg]
    · intro hone
      obtain ⟨a, b, hs⟩ := stringsSplit_of_count_one _ hone
      obtain ⟨h₁, h₂, h₃⟩ := stringsSplit_eq_pair '@' _ a b hs
      exact ⟨a, b, h₁, h₂, h₃, hpair a b hs⟩
  · intro hp
    constructor
    · simp only [sendEmailMessage, hvalid, hcred, hp, Bool.not_true, Bool.false_eq_true,
        if_false, if_true]
    · unfold sendEmailMessageMailerSend
      dsimp only
      split
      · rfl
      · split <;> rfl

/-- Witness of C13: under an unknown provider name a sender address with two
"@" fails before the vendor is reached, and one with a single "@" reaches the
Mailgun vendor with the domain after the "@"; under "MailerSend" the address
with two "@" reaches the MailerSend vendor. -/
theorem sendEmailMessage_variant_choice_witness :
    sendEmailMessage
        (fixtureClient (.error fixtureNotFound) (.error fixtureNotFound) fixtureFallbackSecrets)
        (fixtureVendors "id-2")
        { fixtureConfig "Nobody" true with
          spec := { provider := "Nobody", apiTokenSecretRef := "tok", senderEmail := "a@b@c" } }
        "x@y.zz" "Hi" "Hello" =
      (.error "failed to send email: invalid sender email format",
        [.getSecret { name := "tok", Namespace := "ns" },
          .getSecret { name := "tok", Namespace := "default" }]) ∧
    (∃ localPart domain : List Char,
      (fixtureConfig "mailersend" true).spec.senderEmail.toList = localPart ++ '@' :: domain ∧
      '@' ∉ localPart ∧ '@' ∉ domain ∧
      (sendEmailMessageMailgun (fixtureVendors "id-2") (fixtureConfig "mailersend" true)
        "x@y.zz" "Hi" "Hello" "s3cr3t").2 =
        [.mailgunSend
          { domain := String.mk domain, apiKey := "s3cr3t",
            sender := (fixtureConfig "mailersend" true).spec.senderEmail,
            subject := "Hi", text := "Hello", recipient := "x@y.zz" }]) ∧
    (sendEmailMessageMailerSend (fixtureVendors "id-2")
        { fixtureConfig "MailerSend" true with
          spec := { provider := "MailerSend", apiTokenSecretRef := "tok",
                    senderEmail := "a@b@c" } }
        "x@y.zz" "Hi" "Hello" "s3cr3t").2 =
      [.mailerSendSend
        { apiToken := "s3cr3t", fromName := "a@b@c", fromEmail := "a@b@c",
          recipientName := "Recipient", recipientEmail := "x@y.zz", subject := "Hi",
          text := "Hello" }] :=
  ⟨((sendEmailMessage_variant_choice
      (fixtureClient (.error fixtureNotFound) (.error fixtureNotFound) fixtureFallbackSecrets)
      (fixtureVendors "id-2")
      { fixtureConfig "Nobody" true with
        spec := { provider := "Nobody", apiTokenSecretRef := "tok", senderEmail := "a@b@c" } }
      "x@y.zz" "Hi" "Hello" "s3cr3t"
      [.getSecret { name := "tok", Namespace := "ns" },
        .getSecret { name := "tok", Namespace := "default" }]
      (by decide) rfl).1 (by decide)).2.2.1 (by decide),
    ((sendEmailMessage_variant_choice
      (fixtureClient (.error fixtureNotFound) (.error fixtureNotFound) fixtureFallbackSecrets)
      (fixtureVendors "id-2") (fixtureConfig "mailersend" true)
      "x@y.zz" "Hi" "Hello" "s3cr3t"
      [.getSecret { name := "tok", Namespace := "ns" },
        .getSecret { name := "tok", Namespace := "default" }]
      (by decide) rfl).1 (by decide)).2.2.2 (by decide),
    ((sendEmailMessage_variant_choice
      (fixtureClient (.error fixtureNotFound) (.error fixtureNotFound) fixtureFallbackSecrets)
      (fixtureVendors "id-2")
      { fixtureConfig "MailerSend" true with
        spec := { provider := "MailerSend", apiTokenSecretRef := "tok",
                  senderEmail := "a@b@c" } }
      "x@y.zz" "Hi" "Hello" "s3cr3t"
      [.getSecret { name := "tok", Namespace := "ns" },
        .getSecret { name := "tok", Namespace := "default" }]
      (by decide) rfl).2 rfl).2⟩

/-! ## Lemmas on the message id -/

theorem sendEmailMessageMailerSend_ok_source (v : Vendors) (sc : EmailSenderConfig)
    (recipient subject body token id : String) (t : List Effect)
    (h : sendEmailMessageMailerSend v sc recipient subject body token = (.ok id, t)) :
    ∃ call res, .mailerSendSend call ∈ t ∧ v.mailerSendSend call = .ok res ∧
      res.statusCode = 202 ∧ id = res.xMessageId := by
  unfold sendEmailMessageMailerSend at h
  dsimp only at h
  split at h
  · simp at h
  · rename_i res hres
    split at h
    · simp at h
    · rename_i hcode
      simp only [Prod.mk.injEq, Except.ok.injEq] at h
      obtain ⟨rfl, rfl⟩ := h
      exact ⟨_, res, by simp, hres, by simpa using hcode, rfl⟩

theorem sendEmailMessageMailgun_ok_source (v : Vendors) (sc : EmailSenderConfig)
    (recipient subject body token id : String) (t : List Effect)
    (h : sendEmailMessageMailgun v sc recipient subject body token = (.ok id, t)) :
    ∃ call mes, .mailgunSend call ∈ t ∧ v.mailgunSend call = .ok (mes, id) := by
  unfold sendEmailMessageMailgun at h
  split at h
  · dsimp only at h
    split at h
    · simp at h
    · rename_i mes id₁ hres
      simp only [Prod.mk.injEq, Except.ok.injEq] at h
      obtain ⟨rfl, rfl⟩ := h
      exact ⟨_, mes, by simp, hres⟩
  · simp at h

theorem sendEmailMessage_ok_source (c : Client) (v : Vendors) (sc : EmailSenderConfig)
    (recipient subject body id : String) (t : List Effect)
    (h : sendEmailMessage c v sc recipient subject body = (.ok id, t)) :
    (∃ call res, .mailerSendSend call ∈ t ∧ v.mailerSendSend call = .ok res ∧
        res.statusCode = 202 ∧ id = res.xMessageId) ∨
      ∃ call mes, .mailgunSend call ∈ t ∧ v.mailgunSend call = .ok (mes, id) := by
  unfold sendEmailMessage at h
  split at h
  · simp at h
  · split at h
    · simp at h
    · rename_i token t₁ hcred
      split at h
      · split at h
        · simp at h
        · rename_i id₁ t₂ hvar
          simp only [Prod.mk.injEq, Except.ok.injEq] at h
          obtain ⟨rfl, rfl⟩ := h
          obtain ⟨call, res, hm, hres, hcode, hid⟩ :=
            sendEmailMessageMailerSend_ok_source v sc recipient subject body token id₁ t₂ hvar
          exact Or.inl ⟨call, res, List.mem_append_right _ hm, hres, hcode, hid⟩
      · split at h
        · simp at h
        · rename_i id₁ t₂ hvar
          simp only [Prod.mk.injEq, Except.ok.injEq] at h
          obtain ⟨rfl, rfl⟩ := h
          obtain ⟨call, mes, hm, hres⟩ :=
            sendEmailMessageMailgun_ok_source v sc recipient subject body token id₁ t₂ hvar
          exact Or.inr ⟨call, mes, List.mem_append_right _ hm, hres⟩

theorem statusUpdateEmail_not_mem_send (c : Client) (v : Vendors) (sc : EmailSenderConfig)
    (recipient subject body : String) (obj : Email) :
    Effect.statusUpdateEmail obj ∉ (sendEmailMessage c v sc recipient subject body).2 := by
  intro hm
  rcases sendEmailMessage_trace c v sc recipient subject body _ hm with h | h <;>
    simp [Effect.isSecretLookup, Effect.isProviderCall] at h

theorem mem_updateEmailStatus_snd (c : Client) (email obj : Email) (status errMsg : String)
    (h : Effect.statusUpdateEmail obj ∈ (updateEmailStatus c email status errMsg).2) :
    obj = { email with status := { email.status with deliveryStatus := status, error := errMsg } } := by
  rw [updateEmailStatus_snd] at h
  split at h
  · simp at h
  · simpa using h

/-- C14 (amended): whenever `EmailReconciler.Reconcile` issues a status write
with deliveryState "Sent", the object written is the one it leaves, its error
is "", and its message id is exactly the id the vendor handed back in this
run: the `X-Message-Id` header of a 202 response of MailerSend, or the id
returned by the Mailgun send.  The stored id is therefore non-empty whenever
the vendor supplied a non-empty one. -/
theorem reconcile_sent_records_vendor_id (c : Client) (v : Vendors) (req : ObjectKey)
    (obj : Email)
    (hw : .statusUpdateEmail obj ∈ (EmailReconciler.Reconcile c v req).trace)
    (hs : obj.status.deliveryStatus = "Sent") :
    obj.status.error = "" ∧ (EmailReconciler.Reconcile c v req).obj = some obj ∧
      ((∃ call res, .mailerSendSend call ∈ (EmailReconciler.Reconcile c v req).trace ∧
          v.mailerSendSend call = .ok res ∧ res.statusCode = 202 ∧
          obj.status.messageId = res.xMessageId) ∨
        ∃ call mes, .mailgunSend call ∈ (EmailReconciler.Reconcile c v req).trace ∧
          v.mailgunSend call = .ok (mes, obj.status.messageId)) := by
  have hfs : ("Failed" : String) ≠ "Sent" := by decide
  rcases hget : c.getEmail req with e | email
  · simp [EmailReconciler.Reconcile, hget] at hw
  · by_cases hsent : email.status.deliveryStatus = "Sent"
    · simp [EmailReconciler.Reconcile, hget, hsent] at hw
    · cases hdel : timeIsZero email.deletionTimestamp
      · simp [EmailReconciler.Reconcile, hget, hsent, hdel] at hw
      · rcases hsc : c.getSenderConfig
            { name := email.spec.senderConfigRef, Namespace := req.Namespace } with err | sc
        · rw [reconcile_of_config_error c v req email err hget hsent hdel hsc] at hw
          simp only [List.mem_append, List.mem_cons, List.mem_singleton, reduceCtorEq,
            List.not_mem_nil, or_false, false_or] at hw
          have := mem_updateEmailStatus_snd c email obj _ _ hw
          subst this
          exact absurd hs hfs
        · rw [reconcile_of_config c v req email sc hget hsent hdel hsc] at hw ⊢
          split at hw
          · simp only [List.mem_append, List.mem_cons, List.mem_singleton, reduceCtorEq,
              List.not_mem_nil, or_false, false_or] at hw
            have := mem_updateEmailStatus_snd c email obj _ _ hw
            subst this
            exact absurd hs hfs
          · rename_i hv
            rw [if_neg hv]
            have hnot := statusUpdateEmail_not_mem_send c v sc email.spec.recipientEmail
              email.spec.subject email.spec.body obj
            rcases hres : sendEmailMessage c v sc email.spec.recipientEmail email.spec.subject
                email.spec.body with ⟨e | id, t⟩
            · rw [hres] at hw hnot
              simp only [List.mem_append, List.mem_cons, List.mem_singleton, reduceCtorEq,
                List.not_mem_nil, or_false, false_or] at hw hnot
              rcases hw with hw | hw
              · exact absurd hw hnot
              · have := mem_updateEmailStatus_snd c email obj _ _ hw
                subst this
                exact absurd hs hfs
            · rw [hres] at hw hnot
              simp only [List.mem_append, List.mem_cons, List.mem_singleton, reduceCtorEq,
                List.not_mem_nil, or_false, false_or] at hw hnot
              rcases hw with hw | hw
              · exact absurd hw hnot
              · have := mem_updateEmailStatus_snd c _ obj _ _ hw
                subst this
                refine ⟨rfl, by simp only [updateEmailStatus_fst], ?_⟩
                rcases sendEmailMessage_ok_source c v sc _ _ _ id t hres with
                  ⟨call, res, hm, hcall, hcode, hid⟩ | ⟨call, mes, hm, hcall⟩
                · exact Or.inl ⟨call, res, by simp [hm], hcall, hcode, hid⟩
                · exact Or.inr ⟨call, mes, by simp [hm], hcall⟩

/-- Witness of C14 (amended): a run that ends "Sent" with the id "id-2" of the
MailerSend response. -/
theorem reconcile_sent_records_vendor_id_witness :
    (fixtureEmail "x@y.zz" ⟨"Sent", "", "id-2"⟩ none).status.error = "" ∧
      (EmailReconciler.Reconcile
        (fixtureClient (.ok (fixtureEmail "x@y.zz" ⟨"", "", ""⟩ none))
          (.ok (fixtureConfig "MailerSend" true)) fixtureFallbackSecrets)
        (fixtureVendors "id-2") fixtureRequest).obj =
        some (fixtureEmail "x@y.zz" ⟨"Sent", "", "id-2"⟩ none) := by
  have hok : isValidEmail "x@y.zz" = true := by decide
  have hrun : Effect.statusUpdateEmail (fixtureEmail "x@y.zz" ⟨"Sent", "", "id-2"⟩ none) ∈
      (EmailReconciler.Reconcile
        (fixtureClient (.ok (fixtureEmail "x@y.zz" ⟨"", "", ""⟩ none))
          (.ok (fixtureConfig "MailerSend" true)) fixtureFallbackSecrets)
        (fixtureVendors "id-2") fixtureRequest).trace := by
    rw [reconcile_of_config _ _ _ (fixtureEmail "x@y.zz" ⟨"", "", ""⟩ none)
      (fixtureConfig "MailerSend" true) rfl (by decide) rfl rfl]
    simp only [fixtureEmail, fixtureConfig, sendEmailMessage, hok, updateEmailStatus_snd]
    decide
  have h := reconcile_sent_records_vendor_id _ _ _ _ hrun rfl
  exact ⟨h.1, h.2.1⟩

/-- C14 as stated fails: MailerSend answers 202 without an `X-Message-Id`
header, the recipient passes `isValidEmail`, the SenderConfig is valid, and the
status written is "Sent" with an empty message id. -/
theorem reconcile_sent_with_empty_id :
    isValidEmail "x@y.zz" = true ∧
      (fixtureConfig "MailerSend" true).status.valid = true ∧
      (fixtureVendors "").mailerSendSend
          { apiToken := "s3cr3t", fromName := "me@mail.example.org",
            fromEmail := "me@mail.example.org", recipientName := "Recipient",
            recipientEmail := "x@y.zz", subject := "Hi", text := "Hello" } =
        .ok { statusCode := 202, status := "202 Accepted", xMessageId := "" } ∧
      Effect.statusUpdateEmail (fixtureEmail "x@y.zz" ⟨"Sent", "", ""⟩ none) ∈
        (EmailReconciler.Reconcile
          (fixtureClient (.ok (fixtureEmail "x@y.zz" ⟨"", "", ""⟩ none))
            (.ok (fixtureConfig "MailerSend" true)) fixtureFallbackSecrets)
          (fixtureVendors "") fixtureRequest).trace := by
  have hok : isValidEmail "x@y.zz" = true := by decide
  refine ⟨hok, rfl, rfl, ?_⟩
  rw [reconcile_of_config _ _ _ (fixtureEmail "x@y.zz" ⟨"", "", ""⟩ none)
    (fixtureConfig "MailerSend" true) rfl (by decide) rfl rfl]
  simp only [fixtureEmail, fixtureConfig, sendEmailMessage, hok, updateEmailStatus_snd]
  decide

end EmailOperator
